import Mathlib

/-!
Verification of the task-configuration validation layer of the onefuzz
repository: shallow embeddings of
`src/api-service/__app__/onefuzzlib/tasks/config.py` and
`src/deployment/deploylib/configuration.py`, with theorems settling the
specification's claims about them.  Strings are modelled as `List Char`
where character-level reasoning is needed, and as `String` elsewhere;
external collaborators (object store, pool registry, task-type catalog,
the standard library's IP parser) are parameters of an environment record.
-/

namespace Onefuzz

/-- Python whitespace as recognised by `str.strip()` with no argument: the
ASCII whitespace characters plus the Unicode space characters. -/
def isPySpace (c : Char) : Bool :=
  (c.toNat ≥ 9 && c.toNat ≤ 13) || c = ' ' ||
  (c.toNat ≥ 28 && c.toNat ≤ 31) || c.toNat = 133 || c.toNat = 160 ||
  c.toNat = 5760 || (c.toNat ≥ 8192 && c.toNat ≤ 8202) || c.toNat = 8232 ||
  c.toNat = 8233 || c.toNat = 8239 || c.toNat = 8287 || c.toNat = 12288

/-- Python `str.strip()`: remove leading and trailing whitespace. -/
def pyStrip (s : List Char) : List Char :=
  ((s.dropWhile isPySpace).reverse.dropWhile isPySpace).reverse

/-- Python `str.split("/")`: the chunks between forward slashes, empty
chunks included (so `"".split("/")` is `[""]`). -/
def splitSlash : List Char → List (List Char)
  | [] => [[]]
  | c :: cs =>
    if c = '/' then [] :: splitSlash cs
    else
      match splitSlash cs with
      | [] => [[c]]
      | p :: ps => (c :: p) :: ps

/-- The root of a `PurePosixPath`: `"//"` for exactly two leading slashes,
`"/"` for one or for three or more, empty otherwise (CPython's posix
`splitroot`). -/
def pathRoot (s : List Char) : List Char :=
  if s.take 2 = ['/', '/'] ∧ s.take 3 ≠ ['/', '/', '/'] then ['/', '/']
  else if s.take 1 = ['/'] then ['/']
  else []

/-- The relative components of a `PurePosixPath`: the slash-separated chunks
with empty chunks and `"."` chunks discarded (CPython's `parse_parts`). -/
def pathSegs (s : List Char) : List (List Char) :=
  (splitSlash s).filter fun p => decide (p ≠ [] ∧ p ≠ ['.'])

/-- The string `"/".join(segs)` used when printing a `PurePosixPath`. -/
def joinSlash : List (List Char) → List Char
  | [] => []
  | [p] => p
  | p :: q :: rest => p ++ '/' :: joinSlash (q :: rest)

/-- The `parts` tuple of `PurePosixPath(s)`: the root entry (when there is
one) followed by the relative components. -/
def pathParts (s : List Char) : List (List Char) :=
  (if pathRoot s = [] then [] else [pathRoot s]) ++ pathSegs s

/-- The result of `PurePosixPath(s).as_posix()`: the root followed by the
joined components, or `"."` for the empty relative path. -/
def asPosix (s : List Char) : List Char :=
  if pathRoot s = [] then
    if pathSegs s = [] then ['.'] else joinSlash (pathSegs s)
  else pathRoot s ++ joinSlash (pathSegs s)

/-- Python `part.endswith(".")` on a path component. -/
def endsWithDot (p : List Char) : Bool :=
  match p.getLast? with
  | some c => c = '.'
  | none => false

/-- Embedding of `is_valid_blob_name` (tasks/config.py, lines 130-172), with
`pathlib.PurePosixPath` modelled by `pathParts`, `pathRoot` and `asPosix`.
The checks appear in the source's order: stripped-equality, minimum and
maximum length, component count, components ending in a dot, absoluteness,
`"."` and `".."` components, and byte-identity with the normalized form. -/
def is_valid_blob_name (blob_name : List Char) : Bool :=
  if blob_name ≠ pyStrip blob_name then false
  else if blob_name.length < 1 then false
  else if blob_name.length > 1024 then false
  else if (pathParts blob_name).length > 254 then false
  else if ∃ p ∈ pathParts blob_name, endsWithDot p = true then false
  else if pathRoot blob_name ≠ [] then false
  else if ['.'] ∈ pathParts blob_name then false
  else if ['.', '.'] ∈ pathParts blob_name then false
  else decide (blob_name = asPosix blob_name)

/-- The specification's stated conditions for a valid blob name, read from
its words: length between 1 and 1024, equality with the stripped self, at
most 254 segments when split on forward slashes, no segment ending in a dot,
no leading slash, no `"."` or `".."` segment, and byte-identity with the
normalized form. -/
def blobNameSpec (s : List Char) : Prop :=
  1 ≤ s.length ∧ s.length ≤ 1024 ∧ s = pyStrip s ∧
  (splitSlash s).length ≤ 254 ∧
  (∀ seg ∈ splitSlash s, endsWithDot seg = false) ∧
  s.take 1 ≠ ['/'] ∧
  (∀ seg ∈ splitSlash s, seg ≠ ['.'] ∧ seg ≠ ['.', '.']) ∧
  s = asPosix s

instance (s : List Char) : Decidable (blobNameSpec s) := by
  unfold blobNameSpec; infer_instance

theorem splitSlash_ne_nil (s : List Char) : splitSlash s ≠ [] := by
  match s with
  | [] => simp [splitSlash]
  | c :: cs =>
    unfold splitSlash
    split
    · simp
    · match h : splitSlash cs with
      | [] => simp
      | p :: ps => simp

theorem not_slash_of_mem_splitSlash {s p : List Char}
    (hp : p ∈ splitSlash s) : '/' ∉ p := by
  induction s generalizing p with
  | nil => simp [splitSlash] at hp; simp [hp]
  | cons c cs ih =>
    unfold splitSlash at hp
    by_cases hc : c = '/'
    · rw [if_pos hc] at hp
      rcases List.mem_cons.mp hp with h | h
      · simp [h]
      · exact ih h
    · rw [if_neg hc] at hp
      rcases hq : splitSlash cs with _ | ⟨q, qs⟩
      · exact absurd hq (splitSlash_ne_nil cs)
      · rw [hq] at hp
        rcases List.mem_cons.mp hp with h | h
        · subst h
          intro hmem
          rcases List.mem_cons.mp hmem with h | h
          · exact hc h.symm
          · exact ih (hq ▸ List.mem_cons_self q qs) h
        · exact ih (hq ▸ List.mem_cons_of_mem q h)

theorem splitSlash_no_slash {a : List Char} (ha : '/' ∉ a) :
    splitSlash a = [a] := by
  induction a with
  | nil => simp [splitSlash]
  | cons c cs ih =>
    have hc : c ≠ '/' := fun h => ha (h ▸ List.mem_cons_self c cs)
    have hcs : '/' ∉ cs := fun h => ha (List.mem_cons_of_mem c h)
    unfold splitSlash
    rw [if_neg hc, ih hcs]

theorem splitSlash_append {p : List Char} (hp : '/' ∉ p) (t : List Char) :
    splitSlash (p ++ '/' :: t) = p :: splitSlash t := by
  induction p with
  | nil => simp [splitSlash]
  | cons c cs ih =>
    have hc : c ≠ '/' := fun h => hp (h ▸ List.mem_cons_self c cs)
    have hcs : '/' ∉ cs := fun h => hp (List.mem_cons_of_mem c h)
    rw [List.cons_append]
    show splitSlash (c :: (cs ++ '/' :: t)) = (c :: cs) :: splitSlash t
    conv_lhs => rw [splitSlash]
    rw [if_neg hc, ih hcs]

theorem splitSlash_joinSlash {L : List (List Char)}
    (hL : ∀ p ∈ L, '/' ∉ p) (hne : L ≠ []) :
    splitSlash (joinSlash L) = L := by
  induction L with
  | nil => exact absurd rfl hne
  | cons p ps ih =>
    match ps with
    | [] => exact splitSlash_no_slash (hL p (List.mem_cons_self p []))
    | q :: qs =>
      have hp : '/' ∉ p := hL p (List.mem_cons_self p (q :: qs))
      have htail : ∀ r ∈ q :: qs, '/' ∉ r := fun r hr =>
        hL r (List.mem_cons_of_mem p hr)
      rw [joinSlash, splitSlash_append hp, ih htail (by simp)]

theorem mem_pathSegs {s q : List Char} (hq : q ∈ pathSegs s) :
    q ∈ splitSlash s ∧ q ≠ [] ∧ q ≠ ['.'] := by
  unfold pathSegs at hq
  have h1 := List.mem_of_mem_filter hq
  have h2 := List.of_mem_filter hq
  simp only [decide_eq_true_eq] at h2
  exact ⟨h1, h2.1, h2.2⟩

theorem take_one_of_take_two {s : List Char} {a b : Char}
    (h : s.take 2 = [a, b]) : s.take 1 = [a] := by
  cases s with
  | nil => simp [List.take] at h
  | cons x t =>
    simp [List.take] at h ⊢
    exact h.1

theorem pathRoot_eq_nil_of_take {s : List Char} (h : s.take 1 ≠ ['/']) :
    pathRoot s = [] := by
  unfold pathRoot
  have h1 : ¬(s.take 2 = ['/', '/'] ∧ s.take 3 ≠ ['/', '/', '/']) := by
    intro hc
    exact h (take_one_of_take_two hc.1)
  rw [if_neg h1, if_neg h]

theorem joinSlash_take_one (c : Char) (cs : List Char)
    (ps : List (List Char)) : (joinSlash ((c :: cs) :: ps)).take 1 = [c] := by
  cases ps <;> simp [joinSlash, List.take]

/-- C1 (amended): `is_valid_blob_name` agrees with the specification's
conjunction of conditions on every string except the lone string `"."`,
which the code accepts (its parsed component list is empty, so no segment
condition can fire, and it normalizes to itself) while the spec's
segment conditions reject it. -/
theorem C1_blob_name_validator (s : List Char) :
    is_valid_blob_name s = true ↔ (blobNameSpec s ∨ s = ['.']) := by
  constructor
  · intro h
    unfold is_valid_blob_name at h
    split_ifs at h with h1 h2 h3 h4 h5 h6 h7 h8
    replace h := of_decide_eq_true h
    push_neg at h1 h6
    have hparts : pathParts s = pathSegs s := by
      unfold pathParts; rw [h6]; simp
    rcases hsegs : pathSegs s with _ | ⟨p, ps⟩
    · right
      have ha : asPosix s = ['.'] := by
        unfold asPosix; rw [h6, hsegs]; simp
      rw [h]; exact ha
    · left
      have hs' : s = joinSlash (p :: ps) := by
        have ha : asPosix s = joinSlash (p :: ps) := by
          unfold asPosix; rw [h6, hsegs]; simp
        rw [h]; exact ha
      have hnos : ∀ q ∈ p :: ps, '/' ∉ q := by
        rw [← hsegs]
        intro q hq
        exact not_slash_of_mem_splitSlash (mem_pathSegs hq).1
      have hsplit : splitSlash s = p :: ps := by
        rw [hs']
        exact splitSlash_joinSlash hnos (by simp)
      rw [hparts, hsegs] at h4 h5 h7 h8
      refine ⟨by omega, by omega, h1, ?_, ?_, ?_, ?_, h⟩
      · rw [hsplit]; omega
      · intro seg hseg
        rw [hsplit] at hseg
        push_neg at h5
        simpa using h5 seg hseg
      · have hpmem : p ∈ pathSegs s := by
          rw [hsegs]; exact List.mem_cons_self p ps
        obtain ⟨-, hpne, -⟩ := mem_pathSegs hpmem
        rcases p with _ | ⟨c, cs⟩
        · exact absurd rfl hpne
        · have hc : c ≠ '/' := fun hcc =>
            hnos (c :: cs) (List.mem_cons_self _ _)
              (hcc ▸ List.mem_cons_self c cs)
          rw [hs', joinSlash_take_one]
          intro heq
          exact hc (List.cons.injEq .. ▸ heq).1
      · intro seg hseg
        rw [hsplit] at hseg
        have hsmem : seg ∈ pathSegs s := by rw [hsegs]; exact hseg
        refine ⟨(mem_pathSegs hsmem).2.2, ?_⟩
        intro he
        exact h8 (he ▸ hseg)
  · intro hcase
    rcases hcase with hspec | hdot
    · obtain ⟨hl1, hl2, hstrip, hcount, hdots, htake, hsegcond, hnorm⟩ := hspec
      have hroot : pathRoot s = [] := pathRoot_eq_nil_of_take htake
      have hparts : pathParts s = pathSegs s := by
        unfold pathParts; rw [hroot]; simp
      have hlen : (pathSegs s).length ≤ (splitSlash s).length := by
        unfold pathSegs
        exact List.length_filter_le _ _
      unfold is_valid_blob_name
      rw [if_neg (not_ne_iff.mpr hstrip), if_neg (by omega), if_neg (by omega),
        if_neg (by rw [hparts]; omega),
        if_neg (by
          push_neg
          intro q hq
          rw [hparts] at hq
          simp [hdots q (mem_pathSegs hq).1]),
        if_neg (not_ne_iff.mpr hroot),
        if_neg (by
          intro hin
          rw [hparts] at hin
          exact (mem_pathSegs hin).2.2 rfl),
        if_neg (by
          intro hin
          rw [hparts] at hin
          exact (hsegcond _ (mem_pathSegs hin).1).2 rfl)]
      exact decide_eq_true hnorm
    · rw [hdot]; decide

/-- C1 counterexample: the single-dot string.  The code accepts `"."`
(`PurePosixPath(".")` has no components and prints back as `"."`), while
the claim's conditions — a segment must not equal `"."` nor end in a dot —
say it must be rejected. -/
theorem C1_counterexample :
    is_valid_blob_name ['.'] = true ∧ ¬ blobNameSpec ['.'] := by decide

/-! ## Task-configuration data model

The enums and records of `onefuzztypes` as consumed by tasks/config.py:
`Compare`, `ContainerType`, `ContainerPermission`, `TaskFeature`, the task
definition schema, and the submitted task configuration.  Only the fields
the validated/projected code reads are modelled. -/

inductive Compare
  | Equal
  | AtLeast
  | AtMost
deriving DecidableEq, Repr

def Compare.pyName : Compare → String
  | .Equal => "Equal"
  | .AtLeast => "AtLeast"
  | .AtMost => "AtMost"

inductive ContainerPermission
  | Read
  | Write
  | Delete
  | List
deriving DecidableEq, Repr

inductive ContainerType
  | setup
  | tools
  | inputs
  | crashes
  | reports
  | analysis
  | coverage
  | readonly_inputs
  | unique_reports
deriving DecidableEq, Repr

def ContainerType.pyName : ContainerType → String
  | .setup => "setup"
  | .tools => "tools"
  | .inputs => "inputs"
  | .crashes => "crashes"
  | .reports => "reports"
  | .analysis => "analysis"
  | .coverage => "coverage"
  | .readonly_inputs => "readonly_inputs"
  | .unique_reports => "unique_reports"

inductive TaskFeature
  | input_queue_from_container
  | supervisor_exe
  | supervisor_env
  | supervisor_options
  | supervisor_input_marker
  | target_exe
  | target_exe_optional
  | target_env
  | target_options
  | target_options_merge
  | target_workers
  | rename_output
  | generator_exe
  | generator_env
  | generator_options
  | wait_for_files
  | analyzer_exe
  | analyzer_options
  | analyzer_env
  | stats_file
  | target_timeout
  | check_asan_log
  | check_debugger
  | check_retry_count
  | ensemble_sync_delay
  | check_fuzzer_help
  | report_list
  | minimized_stack_depth
  | expect_crash_on_failure
  | coverage_filter
  | target_assembly
  | target_class
  | target_method
  | target_must_use_input
deriving DecidableEq, Repr

inductive TaskType
  | libfuzzer_fuzz
  | libfuzzer_crash_report
  | generic_analysis
  | generic_generator
  | generic_supervisor
deriving DecidableEq, Repr

def TaskType.pyName : TaskType → String
  | .libfuzzer_fuzz => "libfuzzer_fuzz"
  | .libfuzzer_crash_report => "libfuzzer_crash_report"
  | .generic_analysis => "generic_analysis"
  | .generic_generator => "generic_generator"
  | .generic_supervisor => "generic_supervisor"

structure ContainerDef where
  type : ContainerType
  compare : Compare
  value : Nat
  permissions : List ContainerPermission
deriving DecidableEq, Repr

structure VmDef where
  compare : Compare
  value : Nat
deriving DecidableEq, Repr

structure TaskDefinition where
  features : List TaskFeature
  containers : List ContainerDef
  monitor_queue : Option ContainerType := none
  vm : VmDef
deriving DecidableEq, Repr

structure ContainerRef where
  name : String
  type : ContainerType
deriving DecidableEq, Repr

structure PoolRef where
  pool_name : String
  count : Nat
deriving DecidableEq, Repr

/-- Legacy `vm` spec on a task config; `check_config` only tests presence. -/
structure VmSpec where
  sku : String := ""
  count : Nat := 1
deriving DecidableEq, Repr

structure TaskDetails where
  type : TaskType
  target_exe : Option String := none
  supervisor_exe : Option String := none
  supervisor_env : Option (List (String × String)) := none
  supervisor_options : Option (List String) := none
  supervisor_input_marker : Option String := none
  target_env : Option (List (String × String)) := none
  target_options : Option (List String) := none
  target_options_merge : Option Bool := none
  target_workers : Option Nat := none
  rename_output : Option Bool := none
  generator_exe : Option String := none
  generator_env : Option (List (String × String)) := none
  generator_options : Option (List String) := none
  wait_for_files : Option ContainerType := none
  analyzer_exe : Option String := none
  analyzer_options : Option (List String) := none
  analyzer_env : Option (List (String × String)) := none
  stats_file : Option String := none
  stats_format : Option String := none
  target_timeout : Option Nat := none
  check_asan_log : Option Bool := none
  check_debugger : Option Bool := none
  check_retry_count : Option Nat := none
  ensemble_sync_delay : Option Nat := none
  check_fuzzer_help : Option Bool := none
  report_list : Option (List String) := none
  minimized_stack_depth : Option Nat := none
  expect_crash_on_failure : Option Bool := none
  coverage_filter : Option String := none
  target_assembly : Option String := none
  target_class : Option String := none
  target_method : Option String := none
deriving DecidableEq, Repr

structure TaskConfig where
  task : TaskDetails
  vm : Option VmSpec := none
  pool : Option PoolRef := none
  containers : List ContainerRef := []
deriving DecidableEq, Repr

/-- Errors a validation run can raise: `TaskConfigError(msg)` from the
validator itself, or `IndexError` from Python list indexing `[...][0]`. -/
inductive PyErr
  | taskConfigError (msg : String)
  | indexError
deriving DecidableEq, Repr

/-- External collaborators of tasks/config.py, passed as an environment:
the task-type catalog (`TASK_DEFINITIONS`, defined in defs.py outside this
excerpt), the object store, the pool registry, queue/URL issuance, process
environment, and — for configuration.py — the standard library's IP
parser. -/
structure Env where
  taskDefs : TaskType → Option TaskDefinition
  containerExists : String → Bool
  blobExists : String → String → Bool
  poolByName : String → Option Unit
  queueSas : String → String
  containerSasUrl : String → Bool → Bool → Bool → Bool → String
  addContainerSasUrl : String → String
  instanceId : String
  appInsightsKey : Option String := none
  msTelemetryKey : Option String := none
  isIpAddress : String → Bool
  isIpNetwork : String → Bool

/-! ## The validator: check_val, check_containers, check_config -/

/-- Python truthiness of an optional string: `None` and `""` are falsy. -/
def pyTruthyStr : Option String → Bool
  | none => false
  | some s => !(s == "")

/-- Embedding of `check_val` (tasks/config.py, lines 41-51). -/
def check_val (compare : Compare) (expected actual : Nat) : Bool :=
  match compare with
  | .Equal => decide (expected = actual)
  | .AtLeast => decide (expected ≤ actual)
  | .AtMost => decide (expected ≥ actual)

/-- Append to the `containers` dict built by `check_containers`: Python
dicts keep keys in insertion order. -/
def appendGroup : List (ContainerType × List String) → ContainerType → String →
    List (ContainerType × List String)
  | [], t, n => [(t, [n])]
  | (a, ns) :: rest, t, n =>
    if a = t then (a, ns ++ [n]) :: rest else (a, ns) :: appendGroup rest t n

/-- Lookup modelling `containers.get(t, [])`. -/
def lookupGroup : List (ContainerType × List String) → ContainerType → List String
  | [], _ => []
  | (a, ns) :: rest, t => if a = t then ns else lookupGroup rest t

/-- First loop of `check_containers` (lines 71-80): one existence check per
unique container name, and grouping of names by container type. -/
def buildContainerMap (env : Env) :
    List ContainerRef → List String → List (ContainerType × List String) →
    Except PyErr (List (ContainerType × List String))
  | [], _, m => .ok m
  | c :: rest, checked, m =>
    if c.name ∈ checked then
      buildContainerMap env rest checked (appendGroup m c.type c.name)
    else if env.containerExists c.name then
      buildContainerMap env rest (c.name :: checked) (appendGroup m c.type c.name)
    else .error (.taskConfigError ("missing container: " ++ c.name))

/-- Embedding of `check_container` (lines 54-65). -/
def check_container (compare : Compare) (expected : Nat) (ct : ContainerType)
    (m : List (ContainerType × List String)) : Except PyErr Unit :=
  if check_val compare expected (lookupGroup m ct).length then .ok ()
  else
    .error (.taskConfigError ("container type " ++ ct.pyName ++ ": expected "
      ++ compare.pyName ++ " " ++ toString expected ++ ", got "
      ++ toString (lookupGroup m ct).length))

/-- Second loop of `check_containers` (lines 82-85): every declared
container definition is checked against the submitted counts. -/
def checkDefs (m : List (ContainerType × List String)) :
    List ContainerDef → Except PyErr Unit
  | [] => .ok ()
  | cd :: rest =>
    match check_container cd.compare cd.value cd.type m with
    | .ok _ => checkDefs m rest
    | .error e => .error e

/-- Third loop of `check_containers` (lines 87-91): every submitted
container type must be declared by the definition. -/
def checkUnsupported (dts : List ContainerType) :
    List (ContainerType × List String) → Except PyErr Unit
  | [] => .ok ()
  | (t, _) :: rest =>
    if t ∈ dts then checkUnsupported dts rest
    else .error (.taskConfigError ("unsupported container type for this task: " ++ t.pyName))

/-- Monitor-queue check of `check_containers` (lines 93-98). -/
def checkMonitor (definition : TaskDefinition) : Except PyErr Unit :=
  match definition.monitor_queue with
  | some mq =>
    if mq ∈ definition.containers.map (·.type) then .ok ()
    else
      .error (.taskConfigError
        ("unable to monitor container type as it is not used by this task: " ++ mq.pyName))
  | none => .ok ()

/-- Embedding of `check_containers` (lines 68-98). -/
def check_containers (env : Env) (definition : TaskDefinition)
    (config : TaskConfig) : Except PyErr Unit :=
  match buildContainerMap env config.containers [] [] with
  | .error e => .error e
  | .ok m =>
    match checkDefs m definition.containers with
    | .error e => .error e
    | .ok _ =>
      match checkUnsupported (definition.containers.map (·.type)) m with
      | .error e => .error e
      | .ok _ => checkMonitor definition

/-- Embedding of `check_target_exe` (lines 101-126).  A missing blob in the
setup container is logged only, never raised; indexing the first setup
container raises IndexError when there is none. -/
def check_target_exe (env : Env) (config : TaskConfig)
    (definition : TaskDefinition) : Except PyErr Unit :=
  match config.task.target_exe with
  | none =>
    if TaskFeature.target_exe ∈ definition.features then
      .error (.taskConfigError ("missing target_exe"))
    else .ok ()
  | some te =>
    if ¬ is_valid_blob_name te.data then
      .error (.taskConfigError ("target_exe must be a canonicalized relative path"))
    else
      match config.containers.filter (fun x => decide (x.type = ContainerType.setup)) with
      | [] => .error .indexError
      | container :: _ =>
        let _ := env.blobExists container.name te
        .ok ()

def inputMarker : List Char := "{input}".data

/-- Embedding of `target_uses_input` (lines 175-185). -/
def containsSub : List Char → List Char → Bool
  | [], pat => pat.isEmpty
  | c :: rest, pat => pat.isPrefixOf (c :: rest) || containsSub rest pat

def target_uses_input (config : TaskConfig) : Bool :=
  (match config.task.target_options with
   | some opts => opts.any fun o => containsSub o.data inputMarker
   | none => false) ||
  (match config.task.target_env with
   | some kvs => kvs.any fun kv => containsSub kv.2.data inputMarker
   | none => false)

/-- Supervisor-exe requirement of `check_config` (lines 199-205). -/
def checkSupervisorRequired (definition : TaskDefinition)
    (config : TaskConfig) : Except PyErr Unit :=
  if TaskFeature.supervisor_exe ∈ definition.features ∧
      ¬ pyTruthyStr config.task.supervisor_exe then
    .error (.taskConfigError ("missing supervisor_exe"))
  else .ok ()

/-- Input-marker requirement of `check_config` (lines 207-211). -/
def checkTargetUsesInput (definition : TaskDefinition)
    (config : TaskConfig) : Except PyErr Unit :=
  if TaskFeature.target_must_use_input ∈ definition.features ∧
      ¬ target_uses_input config then
    .error (.taskConfigError ("{input} must be used in target_env or target_options"))
  else .ok ()

/-- Deprecated-vm rejection of `check_config` (lines 213-215). -/
def checkVmDeprecated (config : TaskConfig) : Except PyErr Unit :=
  if config.vm.isSome then
    .error (.taskConfigError ("specifying task config vm is no longer supported"))
  else .ok ()

/-- Pool-presence requirement of `check_config` (lines 217-218). -/
def checkPoolSet (config : TaskConfig) : Except PyErr PoolRef :=
  match config.pool with
  | some p => .ok p
  | none => .error (.taskConfigError ("pool must be specified"))

/-- Vm-count requirement of `check_config` (lines 220-227). -/
def checkVmCount (definition : TaskDefinition) (pool : PoolRef) :
    Except PyErr Unit :=
  if ¬ check_val definition.vm.compare definition.vm.value pool.count then
    .error (.taskConfigError ("invalid vm count: expected Compare."
      ++ definition.vm.compare.pyName ++ " " ++ toString definition.vm.value
      ++ ", got " ++ toString pool.count))
  else .ok ()

/-- Pool-resolution requirement of `check_config` (lines 229-231). -/
def checkPoolExists (env : Env) (pool : PoolRef) : Except PyErr Unit :=
  match env.poolByName pool.pool_name with
  | some _ => .ok ()
  | none => .error (.taskConfigError ("invalid pool: " ++ pool.pool_name))

/-- Python `str.replace(old, new)` for a non-empty pattern: every
non-overlapping occurrence is replaced, scanning left to right.  Fuel equal
to the string length keeps the recursion structural, so terms reduce
definitionally; each step consumes at least one character. -/
def replaceFuel : Nat → List Char → List Char → List Char → List Char
  | 0, s, _, _ => s
  | _ + 1, [], _, _ => []
  | n + 1, c :: cs, pat, repl =>
    if pat.isPrefixOf (c :: cs) then
      repl ++ replaceFuel n ((c :: cs).drop pat.length) pat repl
    else c :: replaceFuel n cs pat repl

def pyReplace (s pat repl : String) : String :=
  ⟨replaceFuel s.data.length s.data pat.data repl.data⟩

def emptyStr : String := ""

/-- The fixed tools-directory placeholders of `check_config` (line 240). -/
def toolsPlaceholders : List String := ["{tools_dir}/", "{tools_dir}\\"]

/-- Loop over the tools placeholders (lines 241-253): if `generator_exe`
starts with a placeholder, the string with every occurrence of that
placeholder removed (`str.replace`) must exist as a blob in the tools
container. -/
def checkToolsBlob (env : Env) (cname : String) (g : String) :
    List String → Except PyErr Unit
  | [] => .ok ()
  | tp :: rest =>
    if tp.data.isPrefixOf g.data then
      if ¬ env.blobExists cname (pyReplace g tp emptyStr) then
        .error (.taskConfigError ("generator_exe `" ++ g
          ++ "` does not exist in the tools container `" ++ cname ++ "`"))
      else checkToolsBlob env cname g rest
    else checkToolsBlob env cname g rest

/-- Generator-exe block of `check_config` (lines 235-253).  Mirrors the
source's order: the first tools-type container is indexed (IndexError when
there is none) before `generator_exe` is tested for being unset. -/
def checkGeneratorExe (env : Env) (definition : TaskDefinition)
    (config : TaskConfig) : Except PyErr Unit :=
  if TaskFeature.generator_exe ∈ definition.features then
    match config.containers.filter (fun x => decide (x.type = ContainerType.tools)) with
    | [] => .error .indexError
    | container :: _ =>
      match config.task.generator_exe with
      | none => .error (.taskConfigError ("generator_exe is not defined"))
      | some g =>
        if g = "" then .error (.taskConfigError ("generator_exe is not defined"))
        else checkToolsBlob env container.name g toolsPlaceholders
  else .ok ()

/-- Stats-file block of `check_config` (lines 255-259). -/
def checkStatsFile (definition : TaskDefinition) (config : TaskConfig) :
    Except PyErr Unit :=
  if TaskFeature.stats_file ∈ definition.features ∧
      config.task.stats_file.isSome ∧ config.task.stats_format.isNone then
    .error (.taskConfigError ("using a stats_file requires a stats_format"))
  else .ok ()

/-- Embedding of `check_config` (lines 188-259), the checks in source
order: registered task type, not both vm and pool, containers, supervisor
requirement, input-marker requirement, deprecated vm, pool presence, vm
count, pool resolution, target_exe, generator_exe, stats_file. -/
def check_config (env : Env) (config : TaskConfig) : Except PyErr Unit :=
  match env.taskDefs config.task.type with
  | none => .error (.taskConfigError ("unsupported task type: " ++ config.task.type.pyName))
  | some definition =>
    if config.vm.isSome ∧ config.pool.isSome then
      .error (.taskConfigError ("either the vm or pool must be specified, but not both"))
    else
      (check_containers env definition config).bind fun _ =>
      (checkSupervisorRequired definition config).bind fun _ =>
      (checkTargetUsesInput definition config).bind fun _ =>
      (checkVmDeprecated config).bind fun _ =>
      (checkPoolSet config).bind fun pool =>
      (checkVmCount definition pool).bind fun _ =>
      (checkPoolExists env pool).bind fun _ =>
      (check_target_exe env config definition).bind fun _ =>
      (checkGeneratorExe env definition config).bind fun _ =>
      checkStatsFile definition config

/-- Loop of `get_setup_container` (lines 455-462). -/
def getSetupLoop (t : TaskType) : List ContainerRef → Except PyErr String
  | [] =>
    .error (.taskConfigError ("task missing setup container: task_type = TaskType." ++ t.pyName))
  | c :: rest =>
    if c.type = ContainerType.setup then .ok c.name else getSetupLoop t rest

/-- Embedding of `get_setup_container` (lines 455-462): the first container
of type setup, in submission order. -/
def get_setup_container (config : TaskConfig) : Except PyErr String :=
  getSetupLoop config.task.type config.containers

/-! ## The projector: build_task_config -/

structure JobConfig where
  logs : Option String := none
deriving DecidableEq, Repr

structure Job where
  job_id : String
  config : JobConfig
deriving DecidableEq, Repr

structure Task where
  task_id : String
  config : TaskConfig
deriving DecidableEq, Repr

/-- One entry of a projected container role: the worker-relative path
`task_<role>_<index>` and the permissioned SAS URL. -/
structure ContainerEntry where
  path : String
  url : String
deriving DecidableEq, Repr

/-- Value assigned to a role field by `setattr`: a single object for
exactly-one cardinality, a list otherwise. -/
inductive RoleValue
  | one (e : ContainerEntry)
  | many (es : List ContainerEntry)
deriving DecidableEq, Repr

/-- The flattened unit config (onefuzztypes `TaskUnitConfig`).  Role fields
are kept in one association list (`roles`), since the source assigns them
by `setattr(config, container_def.type.name, ...)`; optional feature fields
are `none` when never assigned.  Fields of `Option (Option τ)` distinguish
never-assigned (`none`) from assigned-`None` (`some none`). -/
structure TaskUnitConfig where
  job_id : String
  task_id : String
  task_type : TaskType
  instance_telemetry_key : Option String := none
  microsoft_telemetry_key : Option String := none
  heartbeat_queue : String
  instance_id : String
  logs : Option String := none
  input_queue : Option String := none
  roles : List (ContainerType × RoleValue) := []
  supervisor_exe : Option (Option String) := none
  supervisor_env : Option (List (String × String)) := none
  supervisor_options : Option (List String) := none
  supervisor_input_marker : Option (Option String) := none
  target_exe : Option (Option String) := none
  target_env : Option (List (String × String)) := none
  target_options : Option (List String) := none
  target_options_merge : Option Bool := none
  target_workers : Option (Option Nat) := none
  rename_output : Option Bool := none
  generator_exe : Option (Option String) := none
  generator_env : Option (List (String × String)) := none
  generator_options : Option (List String) := none
  wait_for_files : Option String := none
  analyzer_exe : Option (Option String) := none
  analyzer_options : Option (List String) := none
  analyzer_env : Option (List (String × String)) := none
  stats_file : Option (Option String) := none
  stats_format : Option (Option String) := none
  target_timeout : Option (Option Nat) := none
  check_asan_log : Option (Option Bool) := none
  check_debugger : Option (Option Bool) := none
  check_retry_count : Option Nat := none
  ensemble_sync_delay : Option (Option Nat) := none
  check_fuzzer_help : Option Bool := none
  report_list : Option (Option (List String)) := none
  minimized_stack_depth : Option (Option Nat) := none
  expect_crash_on_failure : Option Bool := none
  coverage_filter : Option String := none
  target_assembly : Option (Option String) := none
  target_class : Option (Option String) := none
  target_method : Option (Option String) := none
deriving DecidableEq, Repr

/-- `setattr` on the role association list: overwrite an existing key in
place, append a new one. -/
def setAssoc : List (ContainerType × RoleValue) → ContainerType → RoleValue →
    List (ContainerType × RoleValue)
  | [], t, v => [(t, v)]
  | (a, b) :: rest, t, v =>
    if a = t then (t, v) :: rest else (a, b) :: setAssoc rest t v

def lookupRole : List (ContainerType × RoleValue) → ContainerType → Option RoleValue
  | [], _ => none
  | (a, b) :: rest, t => if a = t then some b else lookupRole rest t

/-- One generated role entry (lines 310-322): the `_`-joined path and the
SAS URL whose permission flags mirror the definition's permission set. -/
def mkEntry (env : Env) (cd : ContainerDef) (i : Nat) (c : ContainerRef) :
    ContainerEntry :=
  { path := "task_" ++ cd.type.pyName ++ "_" ++ toString i
    url := env.containerSasUrl c.name
      (decide (ContainerPermission.Read ∈ cd.permissions))
      (decide (ContainerPermission.Write ∈ cd.permissions))
      (decide (ContainerPermission.Delete ∈ cd.permissions))
      (decide (ContainerPermission.List ∈ cd.permissions)) }

/-- Inner loop over `enumerate(task_config.containers)` (lines 306-322). -/
def gatherEntries (env : Env) (cd : ContainerDef) :
    List (Nat × ContainerRef) → List ContainerEntry
  | [] => []
  | (i, c) :: rest =>
    if c.type = cd.type then mkEntry env cd i c :: gatherEntries env cd rest
    else gatherEntries env cd rest

/-- Per-definition loop body (lines 301-333): setup is skipped, roles with
no matching container are skipped, and the assigned value is a single
object exactly when the cardinality is Equal-1 or AtMost-1. -/
def applyContainerDef (env : Env) (cs : List ContainerRef)
    (acc : List (ContainerType × RoleValue)) (cd : ContainerDef) :
    List (ContainerType × RoleValue) :=
  if cd.type = ContainerType.setup then acc
  else
    match gatherEntries env cd cs.enum with
    | [] => acc
    | e :: es =>
      if (cd.compare = Compare.Equal ∨ cd.compare = Compare.AtMost) ∧ cd.value = 1 then
        setAssoc acc cd.type (RoleValue.one e)
      else
        setAssoc acc cd.type (RoleValue.many (e :: es))

def buildRoles (env : Env) (definition : TaskDefinition)
    (cs : List ContainerRef) : List (ContainerType × RoleValue) :=
  definition.containers.foldl (applyContainerDef env cs) []

/-- Python `x or default`: `None` and falsy values give the default. -/
def pyOr (o : Option α) (falsy : α → Bool) (d : α) : α :=
  match o with
  | none => d
  | some v => if falsy v then d else v

/-- Feature chain of `build_task_config` (lines 335-451): one record field
per `if <feature> in definition.features` block, in source order.  The
blocks assign pairwise-distinct fields (except `target_exe`, assigned by
both the `target_exe` and the `target_exe_optional` block, encoded here
with the later block taking precedence), so the sequential `setattr`s are
one simultaneous record update. -/
def applyFeatures (definition : TaskDefinition) (t : TaskDetails)
    (c : TaskUnitConfig) : TaskUnitConfig :=
  { c with
    supervisor_exe :=
      if TaskFeature.supervisor_exe ∈ definition.features then some t.supervisor_exe
      else c.supervisor_exe
    supervisor_env :=
      if TaskFeature.supervisor_env ∈ definition.features then
        some (pyOr t.supervisor_env (·.isEmpty) [])
      else c.supervisor_env
    supervisor_options :=
      if TaskFeature.supervisor_options ∈ definition.features then
        some (pyOr t.supervisor_options (·.isEmpty) [])
      else c.supervisor_options
    supervisor_input_marker :=
      if TaskFeature.supervisor_input_marker ∈ definition.features then
        some t.supervisor_input_marker
      else c.supervisor_input_marker
    target_exe :=
      if TaskFeature.target_exe_optional ∈ definition.features ∧ pyTruthyStr t.target_exe then
        some t.target_exe
      else if TaskFeature.target_exe ∈ definition.features then some t.target_exe
      else c.target_exe
    target_env :=
      if TaskFeature.target_env ∈ definition.features then
        some (pyOr t.target_env (·.isEmpty) [])
      else c.target_env
    target_options :=
      if TaskFeature.target_options ∈ definition.features then
        some (pyOr t.target_options (·.isEmpty) [])
      else c.target_options
    target_options_merge :=
      if TaskFeature.target_options_merge ∈ definition.features then
        some (pyOr t.target_options_merge (!·) false)
      else c.target_options_merge
    target_workers :=
      if TaskFeature.target_workers ∈ definition.features then some t.target_workers
      else c.target_workers
    rename_output :=
      if TaskFeature.rename_output ∈ definition.features then
        some (pyOr t.rename_output (!·) false)
      else c.rename_output
    generator_exe :=
      if TaskFeature.generator_exe ∈ definition.features then some t.generator_exe
      else c.generator_exe
    generator_env :=
      if TaskFeature.generator_env ∈ definition.features then
        some (pyOr t.generator_env (·.isEmpty) [])
      else c.generator_env
    generator_options :=
      if TaskFeature.generator_options ∈ definition.features then
        some (pyOr t.generator_options (·.isEmpty) [])
      else c.generator_options
    wait_for_files :=
      match t.wait_for_files with
      | some w =>
        if TaskFeature.wait_for_files ∈ definition.features then some w.pyName
        else c.wait_for_files
      | none => c.wait_for_files
    analyzer_exe :=
      if TaskFeature.analyzer_exe ∈ definition.features then some t.analyzer_exe
      else c.analyzer_exe
    analyzer_options :=
      if TaskFeature.analyzer_options ∈ definition.features then
        some (pyOr t.analyzer_options (·.isEmpty) [])
      else c.analyzer_options
    analyzer_env :=
      if TaskFeature.analyzer_env ∈ definition.features then
        some (pyOr t.analyzer_env (·.isEmpty) [])
      else c.analyzer_env
    stats_file :=
      if TaskFeature.stats_file ∈ definition.features then some t.stats_file
      else c.stats_file
    stats_format :=
      if TaskFeature.stats_file ∈ definition.features then some t.stats_format
      else c.stats_format
    target_timeout :=
      if TaskFeature.target_timeout ∈ definition.features then some t.target_timeout
      else c.target_timeout
    check_asan_log :=
      if TaskFeature.check_asan_log ∈ definition.features then some t.check_asan_log
      else c.check_asan_log
    check_debugger :=
      if TaskFeature.check_debugger ∈ definition.features then some t.check_debugger
      else c.check_debugger
    check_retry_count :=
      if TaskFeature.check_retry_count ∈ definition.features then
        some (pyOr t.check_retry_count (· == 0) 0)
      else c.check_retry_count
    ensemble_sync_delay :=
      if TaskFeature.ensemble_sync_delay ∈ definition.features then
        some t.ensemble_sync_delay
      else c.ensemble_sync_delay
    check_fuzzer_help :=
      if TaskFeature.check_fuzzer_help ∈ definition.features then
        some (t.check_fuzzer_help.getD true)
      else c.check_fuzzer_help
    report_list :=
      if TaskFeature.report_list ∈ definition.features then some t.report_list
      else c.report_list
    minimized_stack_depth :=
      if TaskFeature.minimized_stack_depth ∈ definition.features then
        some t.minimized_stack_depth
      else c.minimized_stack_depth
    expect_crash_on_failure :=
      if TaskFeature.expect_crash_on_failure ∈ definition.features then
        some (t.expect_crash_on_failure.getD true)
      else c.expect_crash_on_failure
    coverage_filter :=
      if TaskFeature.coverage_filter ∈ definition.features ∧ t.coverage_filter.isSome then
        t.coverage_filter
      else c.coverage_filter
    target_assembly :=
      if TaskFeature.target_assembly ∈ definition.features then some t.target_assembly
      else c.target_assembly
    target_class :=
      if TaskFeature.target_class ∈ definition.features then some t.target_class
      else c.target_class
    target_method :=
      if TaskFeature.target_method ∈ definition.features then some t.target_method
      else c.target_method }

/-- Base record of `build_task_config` (lines 272-284). -/
def baseUnitConfig (env : Env) (job : Job) (task : Task) : TaskUnitConfig :=
  { job_id := job.job_id
    task_id := task.task_id
    task_type := task.config.task.type
    instance_telemetry_key := env.appInsightsKey
    microsoft_telemetry_key := env.msTelemetryKey
    heartbeat_queue := env.queueSas ("task-heartbeat")
    instance_id := env.instanceId }

/-- Stages of `build_task_config` before the feature chain (lines 272-333):
base record, the log-container URL when the job has a (truthy) log
container, the input queue when the definition declares a monitor queue,
and the per-role container projection. -/
def preFeatureUnit (env : Env) (definition : TaskDefinition) (job : Job)
    (task : Task) : TaskUnitConfig :=
  let c0 := baseUnitConfig env job task
  let c1 :=
    match job.config.logs with
    | some l => if l ≠ "" then { c0 with logs := some (env.addContainerSasUrl l) } else c0
    | none => c0
  let c2 :=
    if definition.monitor_queue.isSome then
      { c1 with input_queue := some (env.queueSas task.task_id) }
    else c1
  { c2 with roles := buildRoles env definition task.config.containers }

/-- Success path of `build_task_config` (lines 272-452): the pre-feature
stages followed by the feature chain. -/
def buildTaskUnit (env : Env) (definition : TaskDefinition) (job : Job)
    (task : Task) : TaskUnitConfig :=
  applyFeatures definition task.config.task (preFeatureUnit env definition job task)

/-- Embedding of `build_task_config` (lines 262-452). -/
def build_task_config (env : Env) (job : Job) (task : Task) :
    Except PyErr TaskUnitConfig :=
  match env.taskDefs task.config.task.type with
  | none =>
    .error (.taskConfigError ("unsupported task type: " ++ task.config.task.type.pyName))
  | some definition => .ok (buildTaskUnit env definition job task)

/-! ## configuration.py: instance configuration parsing and NSG rules -/

/-- JSON-like values as Python's `json.load` produces them. -/
inductive JsonVal
  | str (s : String)
  | num (n : Int)
  | bool (b : Bool)
  | null
  | arr (xs : List JsonVal)
  | dict (kvs : List (String × JsonVal))

/-- Python `config[key]` / `key in config` on a dict. -/
def lookupKey : List (String × JsonVal) → String → Option JsonVal
  | [], _ => none
  | (k, v) :: rest, key => if k = key then some v else lookupKey rest key

/-- Python `isinstance(x, str)`. -/
def isStr : JsonVal → Bool
  | .str _ => true
  | _ => false

def isHexChar (c : Char) : Bool :=
  decide (('0' ≤ c ∧ c ≤ '9') ∨ ('a' ≤ c ∧ c ≤ 'f') ∨ ('A' ≤ c ∧ c ≤ 'F'))

def isBrace (c : Char) : Bool := c.toNat = 123 || c.toNat = 125

def stripBraces (s : List Char) : List Char :=
  ((s.dropWhile isBrace).reverse.dropWhile isBrace).reverse

/-- Model of the standard library's `uuid.UUID(hex)` constructor applied to
a string: remove every occurrence of "urn:" then of "uuid:", strip braces
from both ends, remove dashes; the result must be exactly 32 hexadecimal
digits.  (CPython's final `int(hex, 16)` is marginally more lenient —
underscore separators — which no claim exercises.) -/
def pyUUIDValid (s : String) : Bool :=
  let h1 := replaceFuel s.data.length s.data ("urn:".data) []
  let h2 := replaceFuel h1.length h1 ("uuid:".data) []
  let h3 := stripBraces h2
  let h4 := replaceFuel h3.length h3 ['-'] []
  h4.length == 32 && h4.all isHexChar

/-- The typed configuration `Config.__init__` produces.  The two allowed
lists keep the raw JSON values the source stores (the non-string check can
be bypassed, see C5). -/
structure PyConfig where
  cli_client_id : String
  tenant_id : String
  tenant_domain : String
  multi_tenant_domain : String
  allowed_ips : List JsonVal
  allowed_service_tags : List JsonVal

/-- Embedding of `Config.parse_nsg_json` (configuration.py, lines 63-113),
including the guard of lines 99-110 exactly as written: both disjuncts of
the not-a-list-of-strings test are gated on `len(allowed_ips) != 0`, the
second one too, where the string check runs over `allowed_service_tags`. -/
def parse_nsg_json (config : JsonVal) : Except String (List JsonVal × List JsonVal) :=
  match config with
  | .dict kvs =>
    if kvs.length = 0 then
      .error ("Empty Configuration File Provided. Please Provide Valid Config.")
    else
      match lookupKey kvs ("proxy_nsg_config") with
      | none =>
        .error ("proxy_nsg_config not provided as valid key. Please Provide Valid Config.")
      | some proxy =>
        match proxy with
        | .dict pkvs =>
          if pkvs.length = 0 then
            .error ("Empty Inner Configuration File Provided. Please Provide Valid Config.")
          else
            match lookupKey pkvs ("allowed_ips"), lookupKey pkvs ("allowed_service_tags") with
            | some ipsv, some tagsv =>
              match ipsv, tagsv with
              | .arr ips, .arr tags =>
                if (ips.length ≠ 0 ∧ ¬ ips.all isStr) ∨
                    (ips.length ≠ 0 ∧ ¬ tags.all isStr) then
                  .error ("allowed_ips and allowed_service_tags are not a list of strings. Please Provide Valid Config.")
                else .ok (ips, tags)
              | _, _ =>
                .error ("allowed_ips and allowed_service_tags are not a list. Please Provide Valid Config.")
            | _, _ =>
              .error ("allowed_ips and allowed_service_tags not provided. Please Provide Valid Config.")
        | _ =>
          .error ("Inner Configuration is not a Dictionary. Please provide Valid Config.")
  | _ => .error ("Configuration is not a Dictionary. Please provide Valid Config.")

/-- Embedding of `Config.parse_endpoint_json` (lines 115-172), applied to
the top-level dict (the caller has already established dict-ness in
`parse_nsg_json`). -/
def parse_endpoint_json (kvs : List (String × JsonVal)) :
    Except String (String × String × String × String) :=
  match lookupKey kvs ("cli_client_id") with
  | none => .error ("CLI client_id not provided as valid key. Please Provide Valid Config.")
  | some cid =>
    match cid with
    | .str c =>
      if c = "" then .error ("client_id is not a string. Please provide valid client_id.")
      else if ¬ pyUUIDValid c then
        .error ("client_id is not a valid UUID. Please provide valid client_id.")
      else
        match lookupKey kvs ("tenant_id") with
        | none => .error ("tenant_id not provided as valid key. Please provide valid config.")
        | some tid =>
          match tid with
          | .str ti =>
            if ti = "" then .error ("tenant_id is not a string. Please provide valid tenant_id.")
            else
              match lookupKey kvs ("tenant_domain") with
              | none => .error ("tenant_domain not provided as valid key. Please provide valid config.")
              | some td =>
                match td with
                | .str tdo =>
                  if tdo = "" then
                    .error ("tenant_domain is not a string. Please provide valid tenant_domain.")
                  else
                    match lookupKey kvs ("multi_tenant_domain") with
                    | none =>
                      .error ("multi_tenant_domain not provided as valid key. Please provide valid config. If the instance is not multi-tenant, please provide an empty string.")
                    | some mtd =>
                      match mtd with
                      | .str m => .ok (c, ti, tdo, m)
                      | _ =>
                        .error ("multi_tenant_domain is not a string. Please provide valid multi_tenant_domain. If the instance is not multi-tenant, please provide an empty string.")
                | _ =>
                  .error ("tenant_domain is not a string. Please provide valid tenant_domain.")
          | _ => .error ("tenant_id is not a string. Please provide valid tenant_id.")
    | _ => .error ("client_id is not a string. Please provide valid client_id.")

/-- Embedding of `Config.__init__` (lines 59-61): `parse_nsg_json` then
`parse_endpoint_json`; construction succeeds when both do. -/
def Config.parse (config : JsonVal) : Except String PyConfig :=
  match parse_nsg_json config with
  | .error e => .error e
  | .ok (ips, tags) =>
    match config with
    | .dict kvs =>
      match parse_endpoint_json kvs with
      | .error e => .error e
      | .ok (c, ti, td, m) =>
        .ok { cli_client_id := c, tenant_id := ti, tenant_domain := td,
              multi_tenant_domain := m, allowed_ips := ips,
              allowed_service_tags := tags }
    | _ => .error ("Configuration is not a Dictionary. Please provide Valid Config.")

/-- One NSG rule: the raw string and its tag/non-tag classification. -/
structure NsgRule where
  rule : String
  is_tag : Bool
deriving DecidableEq, Repr

/-- Embedding of `NsgRule.check_rule` (lines 189-210), returning the final
`is_tag` flag: empty/whitespace-only strings fail; `"*"` and strings the
external `ipaddress` parser accepts as an address or a network are
non-tags; every other string is a tag. -/
def checkRule (env : Env) (value : String) : Except String Bool :=
  if (pyStrip value.data).length = 0 then
    .error ("Please provide a valid rule. Supply an empty list to block all sources or the wild card * to allow all sources.")
  else if value = "*" then .ok false
  else if env.isIpAddress value then .ok false
  else if env.isIpNetwork value then .ok false
  else .ok true

/-- Embedding of `NsgRule.__init__` (lines 179-187): any `check_rule`
failure becomes the one fixed ValueError. -/
def mkNsgRule (env : Env) (rule : String) : Except String NsgRule :=
  match checkRule env rule with
  | .ok tag => .ok { rule := rule, is_tag := tag }
  | .error _ =>
    .error ("Invalid rule. Please provide a valid rule or supply the wild card *.")

/-- One loop of `parse_rules` (lines 254-271): classify entries in order,
the first failure raising the given per-list error for that entry. -/
def classifyAll (env : Env) (err : String → String) :
    List String → Except String (List NsgRule)
  | [] => .ok []
  | r :: rest =>
    match mkNsgRule env r with
    | .error _ => .error (err r)
    | .ok nr =>
      match classifyAll env err rest with
      | .error e => .error e
      | .ok nrs => .ok (nr :: nrs)

def invalidIpMsg (r : String) : String :=
  "One or more input ips was invalid: " ++ r
    ++ ". Please enter a comma-separated list of valid sources."

def invalidTagMsg (r : String) : String :=
  "One or more input tags was invalid: " ++ r
    ++ ". Please enter a comma-separated list of valid sources."

/-- Embedding of `parse_rules` (lines 242-272). -/
def parse_rules (env : Env) (ips tags : List String) : Except String (List NsgRule) :=
  if "*" ∈ ips then
    match mkNsgRule env ("*") with
    | .ok nr => .ok [nr]
    | .error e => .error e
  else if ips.length + tags.length = 0 then .ok []
  else
    match classifyAll env invalidIpMsg ips with
    | .error e => .error e
    | .ok ipRules =>
      match classifyAll env invalidTagMsg tags with
      | .error e => .error e
      | .ok tagRules => .ok (ipRules ++ tagRules)

/-- The specification's per-entry classification, read from its words: a
non-empty, non-whitespace string is a tag unless it is `"*"` or parses as
an IP address or network. -/
def specRule (env : Env) (r : String) : NsgRule :=
  { rule := r
    is_tag := !(r == "*" || env.isIpAddress r || env.isIpNetwork r) }

/-- Classification failure, per the spec: only empty or whitespace-only
strings fail. -/
def badRule (r : String) : Prop := (pyStrip r.data).length = 0

instance (r : String) : Decidable (badRule r) := by
  unfold badRule; infer_instance

/-! ## Theorems: the claims -/

theorem getSetupLoop_find (t : TaskType) (cs : List ContainerRef) :
    getSetupLoop t cs =
      (match cs.find? (fun c => decide (c.type = ContainerType.setup)) with
       | some c => .ok c.name
       | none =>
         .error (.taskConfigError
           ("task missing setup container: task_type = TaskType." ++ t.pyName))) := by
  induction cs with
  | nil => rfl
  | cons c rest ih =>
    by_cases h : c.type = ContainerType.setup
    · simp [getSetupLoop, List.find?, h]
    · simp [getSetupLoop, List.find?, h, ih]

/-- C10: `get_setup_container` returns the name of the first container of
type setup in submission order, and errs exactly when the config has no
setup container.  It is a pure function of the config (the embedding takes
and returns nothing else), so it never modifies it. -/
theorem C10_get_setup_container (config : TaskConfig) :
    (get_setup_container config =
      (match config.containers.find? (fun c => decide (c.type = ContainerType.setup)) with
       | some c => .ok c.name
       | none =>
         .error (.taskConfigError
           ("task missing setup container: task_type = TaskType."
             ++ config.task.type.pyName)))) ∧
    ((∀ c ∈ config.containers, c.type ≠ ContainerType.setup) ↔
      get_setup_container config =
        .error (.taskConfigError
          ("task missing setup container: task_type = TaskType."
            ++ config.task.type.pyName))) := by
  constructor
  · exact getSetupLoop_find config.task.type config.containers
  · rw [get_setup_container, getSetupLoop_find]
    constructor
    · intro h
      have : config.containers.find? (fun c => decide (c.type = ContainerType.setup)) = none := by
        rw [List.find?_eq_none]
        intro c hc
        simp [h c hc]
      rw [this]
    · intro h c hc
      intro ht
      rcases hf : config.containers.find? (fun c => decide (c.type = ContainerType.setup)) with _ | c0
      · rw [List.find?_eq_none] at hf
        exact hf c hc (by simp [ht])
      · rw [hf] at h
        simp at h

/-- C9: with the target_exe feature declared and no value given,
`check_target_exe` raises TaskConfigError "missing target_exe"; a given
value that fails the blob-name validator is fatal; and a valid value with
a setup container present succeeds for every environment — blob
non-existence in the setup container is never raised. -/
theorem C9_check_target_exe (env : Env) (config : TaskConfig)
    (definition : TaskDefinition) :
    (config.task.target_exe = none →
      TaskFeature.target_exe ∈ definition.features →
      check_target_exe env config definition =
        .error (.taskConfigError ("missing target_exe"))) ∧
    (∀ te, config.task.target_exe = some te →
      is_valid_blob_name te.data = false →
      check_target_exe env config definition =
        .error (.taskConfigError ("target_exe must be a canonicalized relative path"))) ∧
    (∀ te, config.task.target_exe = some te →
      is_valid_blob_name te.data = true →
      (∃ c ∈ config.containers, c.type = ContainerType.setup) →
      check_target_exe env config definition = .ok ()) := by
  refine ⟨?_, ?_, ?_⟩
  · intro h hf
    simp [check_target_exe, h, hf]
  · intro te h hv
    simp [check_target_exe, h, hv]
  · intro te h hv hex
    have hne : config.containers.filter (fun x => decide (x.type = ContainerType.setup)) ≠ [] := by
      rcases hex with ⟨c, hc, ht⟩
      intro hnil
      rw [List.filter_eq_nil_iff] at hnil
      exact hnil c hc (by simp [ht])
    rcases hf : config.containers.filter (fun x => decide (x.type = ContainerType.setup)) with _ | ⟨c0, rest⟩
    · exact absurd hf hne
    · simp [check_target_exe, h, hv, hf]

/-- C2 (amended): with a registered task type, a config setting both the
legacy vm spec and a pool is rejected at the second check, before the
container checks; a config setting the vm spec alone is always rejected,
but the deprecated-vm rejection sits after the container checks and the
supervisor_exe / target_must_use_input feature checks, and before the
pool-presence, vm-count and pool-resolution checks; a config with a vm
spec is never accepted. -/
theorem C2_vm_pool_gate (env : Env) (config : TaskConfig) :
    (∀ d, env.taskDefs config.task.type = some d →
      config.vm.isSome = true → config.pool.isSome = true →
      check_config env config =
        .error (.taskConfigError ("either the vm or pool must be specified, but not both"))) ∧
    (∀ d, env.taskDefs config.task.type = some d →
      config.vm.isSome = true → config.pool = none →
      check_containers env d config = .ok () →
      checkSupervisorRequired d config = .ok () →
      checkTargetUsesInput d config = .ok () →
      check_config env config =
        .error (.taskConfigError ("specifying task config vm is no longer supported"))) ∧
    (config.vm.isSome = true → ∀ u, check_config env config ≠ .ok u) := by
  refine ⟨?_, ?_, ?_⟩
  · intro d hd hv hp
    simp [check_config, hd, hv, hp]
  · intro d hd hv hp h1 h2 h3
    simp [check_config, hd, hp, h1, h2, h3, checkVmDeprecated, hv, Except.bind]
  · intro hv u
    rcases hd : env.taskDefs config.task.type with _ | d
    · simp [check_config, hd]
    · by_cases hp : config.pool.isSome = true
      · simp [check_config, hd, hv, hp]
      · rcases h1 : check_containers env d config with e | u1
        · simp [check_config, hd, hv, hp, h1, Except.bind]
        · rcases h2 : checkSupervisorRequired d config with e | u2
          · simp [check_config, hd, hv, hp, h1, h2, Except.bind]
          · rcases h3 : checkTargetUsesInput d config with e | u3
            · simp [check_config, hd, hv, hp, h1, h2, h3, Except.bind]
            · simp [check_config, hd, hv, hp, h1, h2, h3,
                checkVmDeprecated, Except.bind]

def c2Def : TaskDefinition :=
  { features := []
    containers := [{ type := ContainerType.setup, compare := Compare.Equal,
                     value := 1, permissions := [] }]
    vm := { compare := Compare.AtLeast, value := 1 } }

def c2Env : Env :=
  { taskDefs := fun t => if t = TaskType.libfuzzer_fuzz then some c2Def else none
    containerExists := fun _ => false
    blobExists := fun _ _ => false
    poolByName := fun _ => none
    queueSas := fun n => n
    containerSasUrl := fun n _ _ _ _ => n
    addContainerSasUrl := fun n => n
    instanceId := ""
    isIpAddress := fun _ => false
    isIpNetwork := fun _ => false }

def c2Config : TaskConfig :=
  { task := { type := TaskType.libfuzzer_fuzz }
    vm := some {}
    pool := none
    containers := [{ name := "setup1", type := ContainerType.setup }] }

/-- C2 counterexample: with the vm spec set alone and a container that
fails the existence check, `check_config` reports the missing-container
error, not the deprecated-vm error — so the vm-alone rejection is not
applied at priority step 2, before the container checks, as the claim
states. -/
theorem C2_counterexample :
    c2Config.vm.isSome = true ∧ c2Config.pool = none ∧
    check_config c2Env c2Config =
      .error (.taskConfigError ("missing container: setup1")) :=
  ⟨rfl, rfl, rfl⟩

theorem toolsPlaceholders_exclusive (g : String)
    (h1 : ("{tools_dir}/").data.isPrefixOf g.data = true)
    (h2 : ("{tools_dir}\\").data.isPrefixOf g.data = true) : False := by
  rw [List.isPrefixOf_iff_prefix] at h1 h2
  obtain ⟨t1, e1⟩ := h1
  obtain ⟨t2, e2⟩ := h2
  have he := e1.trans e2.symm
  have hp := List.append_inj_left he (by decide)
  exact absurd hp (by decide)

/-- C8 (amended): when the generator_exe feature is declared, the first
submitted tools container is indexed before anything else — raising an
index error (not TaskConfigError) when the submission has no tools
container.  Given a tools container, an unset or empty generator_exe is a
TaskConfigError; and when generator_exe starts with `"{tools_dir}/"` or
`"{tools_dir}\\"`, the string obtained by removing every occurrence of that
placeholder (Python `str.replace`, not only the leading one) must exist as
a blob in that tools container, else TaskConfigError. -/
theorem C8_generator_exe (env : Env) (definition : TaskDefinition)
    (config : TaskConfig) :
    (TaskFeature.generator_exe ∈ definition.features →
      config.containers.filter (fun x => decide (x.type = ContainerType.tools)) = [] →
      checkGeneratorExe env definition config = .error PyErr.indexError) ∧
    (∀ c rest, TaskFeature.generator_exe ∈ definition.features →
      config.containers.filter (fun x => decide (x.type = ContainerType.tools)) = c :: rest →
      (config.task.generator_exe = none ∨ config.task.generator_exe = some "") →
      checkGeneratorExe env definition config =
        .error (.taskConfigError ("generator_exe is not defined"))) ∧
    (∀ c rest g, TaskFeature.generator_exe ∈ definition.features →
      config.containers.filter (fun x => decide (x.type = ContainerType.tools)) = c :: rest →
      config.task.generator_exe = some g → g ≠ "" →
      ("{tools_dir}/").data.isPrefixOf g.data = true →
      env.blobExists c.name (pyReplace g ("{tools_dir}/") emptyStr) = false →
      checkGeneratorExe env definition config =
        .error (.taskConfigError ("generator_exe `" ++ g
          ++ "` does not exist in the tools container `" ++ c.name ++ "`"))) ∧
    (∀ c rest g, TaskFeature.generator_exe ∈ definition.features →
      config.containers.filter (fun x => decide (x.type = ContainerType.tools)) = c :: rest →
      config.task.generator_exe = some g → g ≠ "" →
      ("{tools_dir}\\").data.isPrefixOf g.data = true →
      env.blobExists c.name (pyReplace g ("{tools_dir}\\") emptyStr) = false →
      checkGeneratorExe env definition config =
        .error (.taskConfigError ("generator_exe `" ++ g
          ++ "` does not exist in the tools container `" ++ c.name ++ "`"))) := by
  refine ⟨?_, ?_, ?_, ?_⟩
  · intro hf hnil
    simp [checkGeneratorExe, hf, hnil]
  · intro c rest hf hcons hg
    rcases hg with hg | hg <;> simp [checkGeneratorExe, hf, hcons, hg]
  · intro c rest g hf hcons hg hge hpre hblob
    simp [checkGeneratorExe, hf, hcons, hg, hge, checkToolsBlob,
      toolsPlaceholders, hpre, hblob]
  · intro c rest g hf hcons hg hge hpre hblob
    have hnot : ("{tools_dir}/").data.isPrefixOf g.data = false := by
      rcases hh : ("{tools_dir}/").data.isPrefixOf g.data
      · rfl
      · exact absurd (toolsPlaceholders_exclusive g hh hpre) not_false
    simp [checkGeneratorExe, hf, hcons, hg, hge, checkToolsBlob,
      toolsPlaceholders, hnot, hpre, hblob]

def c8Def : TaskDefinition :=
  { features := [TaskFeature.generator_exe]
    containers := []
    vm := { compare := Compare.AtLeast, value := 1 } }

def c8Env : Env :=
  { taskDefs := fun t => if t = TaskType.generic_generator then some c8Def else none
    containerExists := fun _ => true
    blobExists := fun _ _ => false
    poolByName := fun _ => some ()
    queueSas := fun n => n
    containerSasUrl := fun n _ _ _ _ => n
    addContainerSasUrl := fun n => n
    instanceId := ""
    isIpAddress := fun _ => false
    isIpNetwork := fun _ => false }

def c8Config : TaskConfig :=
  { task := { type := TaskType.generic_generator }
    pool := some { pool_name := "p", count := 1 }
    containers := [] }

/-- C8 counterexample: generator_exe feature declared, generator_exe unset,
no tools container submitted, every other check passing — `check_config`
fails with IndexError from the `[...][0]` indexing, not with a
TaskConfigError as the claim states. -/
theorem C8_counterexample :
    TaskFeature.generator_exe ∈ c8Def.features ∧
    c8Config.task.generator_exe = none ∧
    check_config c8Env c8Config = .error PyErr.indexError :=
  ⟨by decide, rfl, rfl⟩

/-- Number of submitted containers of a given role. -/
def countType (cs : List ContainerRef) (t : ContainerType) : Nat :=
  (cs.filter (fun c => decide (c.type = t))).length

/-- Pure grouping pass of `check_containers`, with the existence checks
stripped: what `buildContainerMap` returns when every check passes. -/
def groupFold : List (ContainerType × List String) → List ContainerRef →
    List (ContainerType × List String)
  | m, [] => m
  | m, c :: rest => groupFold (appendGroup m c.type c.name) rest

theorem lookupGroup_appendGroup_self (m : List (ContainerType × List String))
    (t : ContainerType) (n : String) :
    lookupGroup (appendGroup m t n) t = lookupGroup m t ++ [n] := by
  induction m with
  | nil => simp [appendGroup, lookupGroup]
  | cons p rest ih =>
    obtain ⟨a, ns⟩ := p
    by_cases h : a = t
    · subst h; simp [appendGroup, lookupGroup]
    · simp [appendGroup, lookupGroup, h, ih]

theorem lookupGroup_appendGroup_other (m : List (ContainerType × List String))
    {t t' : ContainerType} (n : String) (h : t' ≠ t) :
    lookupGroup (appendGroup m t n) t' = lookupGroup m t' := by
  induction m with
  | nil => simp [appendGroup, lookupGroup, Ne.symm h]
  | cons p rest ih =>
    obtain ⟨a, ns⟩ := p
    by_cases ha : a = t
    · subst ha
      simp [appendGroup, lookupGroup, Ne.symm h]
    · by_cases ha' : a = t'
      · subst ha'; simp [appendGroup, lookupGroup, ha]
      · simp [appendGroup, lookupGroup, ha, ha', ih]

theorem lookupGroup_groupFold (cs : List ContainerRef)
    (m : List (ContainerType × List String)) (t : ContainerType) :
    lookupGroup (groupFold m cs) t =
      lookupGroup m t ++ (cs.filter (fun c => decide (c.type = t))).map (·.name) := by
  induction cs generalizing m with
  | nil => simp [groupFold]
  | cons c rest ih =>
    rw [groupFold, ih]
    by_cases h : c.type = t
    · subst h
      simp [lookupGroup_appendGroup_self]
    · simp [lookupGroup_appendGroup_other _ _ (fun he => h he.symm), h]

theorem mem_keys_appendGroup (m : List (ContainerType × List String))
    (t : ContainerType) (n : String) (t' : ContainerType) :
    t' ∈ (appendGroup m t n).map Prod.fst ↔ t' ∈ m.map Prod.fst ∨ t' = t := by
  induction m with
  | nil => simp [appendGroup]
  | cons p rest ih =>
    obtain ⟨a, ns⟩ := p
    by_cases h : a = t
    · subst h
      simp [appendGroup]
      tauto
    · simp [appendGroup, h, ih]
      tauto

theorem mem_keys_groupFold (cs : List ContainerRef)
    (m : List (ContainerType × List String)) (t' : ContainerType) :
    t' ∈ (groupFold m cs).map Prod.fst ↔
      t' ∈ m.map Prod.fst ∨ t' ∈ cs.map (·.type) := by
  induction cs generalizing m with
  | nil => simp [groupFold]
  | cons c rest ih =>
    rw [groupFold, ih, mem_keys_appendGroup, List.map_cons, List.mem_cons]
    tauto

theorem buildContainerMap_ok (env : Env) (cs : List ContainerRef) :
    ∀ checked m, (∀ c ∈ cs, env.containerExists c.name = true) →
      buildContainerMap env cs checked m = .ok (groupFold m cs) := by
  induction cs with
  | nil => intro checked m _; rfl
  | cons c rest ih =>
    intro checked m h
    have hc := h c (List.mem_cons_self c rest)
    have hr : ∀ x ∈ rest, env.containerExists x.name = true := fun x hx =>
      h x (List.mem_cons_of_mem c hx)
    by_cases hm : c.name ∈ checked
    · simp [buildContainerMap, hm, ih _ _ hr, groupFold]
    · simp [buildContainerMap, hm, hc, ih _ _ hr, groupFold]

theorem buildContainerMap_exists (env : Env) (cs : List ContainerRef) :
    ∀ checked m m', buildContainerMap env cs checked m = .ok m' →
      (∀ n ∈ checked, env.containerExists n = true) →
      ∀ c ∈ cs, env.containerExists c.name = true := by
  induction cs with
  | nil => intro checked m m' _ _ c hc; cases hc
  | cons c0 rest ih =>
    intro checked m m' h hchk c hc
    by_cases hm : c0.name ∈ checked
    · simp only [buildContainerMap, if_pos hm] at h
      rcases List.mem_cons.mp hc with he | hr
      · subst he; exact hchk c.name hm
      · exact ih _ _ _ h hchk c hr
    · by_cases hex : env.containerExists c0.name = true
      · simp only [buildContainerMap, if_neg hm, if_pos hex] at h
        rcases List.mem_cons.mp hc with he | hr
        · subst he; exact hex
        · refine ih _ _ _ h ?_ c hr
          intro n hn
          rcases List.mem_cons.mp hn with h1 | h2
          · exact h1 ▸ hex
          · exact hchk n h2
      · simp only [buildContainerMap, if_neg hm, if_neg hex] at h
        cases h

theorem checkDefs_ok_iff (m : List (ContainerType × List String))
    (defs : List ContainerDef) :
    checkDefs m defs = .ok () ↔
      ∀ cd ∈ defs, check_val cd.compare cd.value (lookupGroup m cd.type).length = true := by
  induction defs with
  | nil => simp [checkDefs]
  | cons cd rest ih =>
    by_cases h : check_val cd.compare cd.value (lookupGroup m cd.type).length = true
    · simp [checkDefs, check_container, h, ih]
    · simp [checkDefs, check_container, h]

theorem checkUnsupported_ok_iff (dts : List ContainerType)
    (m : List (ContainerType × List String)) :
    checkUnsupported dts m = .ok () ↔ ∀ p ∈ m, p.1 ∈ dts := by
  induction m with
  | nil => simp [checkUnsupported]
  | cons p rest ih =>
    obtain ⟨t, ns⟩ := p
    by_cases h : t ∈ dts
    · simp [checkUnsupported, h, ih]
    · simp [checkUnsupported, h]

theorem checkMonitor_ok_iff (definition : TaskDefinition) :
    checkMonitor definition = .ok () ↔
      ∀ mq, definition.monitor_queue = some mq →
        mq ∈ definition.containers.map (·.type) := by
  rcases hm : definition.monitor_queue with _ | mq
  · simp [checkMonitor, hm]
  · by_cases h : mq ∈ definition.containers.map (·.type)
    · simp only [checkMonitor, hm, if_pos h]
      constructor
      · intro _ mq' hmq'
        cases hmq'
        exact h
      · intro _
        trivial
    · simp only [checkMonitor, hm, if_neg h]
      constructor
      · intro hcontra
        simp at hcontra
      · intro hall
        exact absurd (hall mq rfl) h

theorem check_containers_ok_iff (env : Env) (definition : TaskDefinition)
    (config : TaskConfig) :
    check_containers env definition config = .ok () ↔
      ∃ m, buildContainerMap env config.containers [] [] = .ok m ∧
        checkDefs m definition.containers = .ok () ∧
        checkUnsupported (definition.containers.map (·.type)) m = .ok () ∧
        checkMonitor definition = .ok () := by
  unfold check_containers
  rcases hb : buildContainerMap env config.containers [] [] with e | m
  · simp
  · simp only []
    rcases hd : checkDefs m definition.containers with e | u
    · simp [hd]
    · rcases hu : checkUnsupported (definition.containers.map (·.type)) m with e | u2
      · simp [hd, hu]
      · simp [hd, hu]

/-- C3: container-role cardinality.  `check_val` implements Equal as exact
match, AtLeast as expected ≤ actual, AtMost as expected ≥ actual; and
`check_containers` succeeds exactly when every submitted container exists
in the store, every declared role's submitted count satisfies its
comparator and value, every role present in the submission is declared by
the definition, and a declared monitor queue appears among the declared
roles — any violation raising TaskConfigError. -/
theorem C3_container_cardinality (env : Env) (definition : TaskDefinition)
    (config : TaskConfig) :
    (∀ compare expected actual, check_val compare expected actual = true ↔
      (match compare with
       | Compare.Equal => expected = actual
       | Compare.AtLeast => expected ≤ actual
       | Compare.AtMost => actual ≤ expected)) ∧
    (check_containers env definition config = .ok () ↔
      ((∀ c ∈ config.containers, env.containerExists c.name = true) ∧
       (∀ cd ∈ definition.containers,
          check_val cd.compare cd.value (countType config.containers cd.type) = true) ∧
       (∀ c ∈ config.containers, c.type ∈ definition.containers.map (·.type)) ∧
       (∀ mq, definition.monitor_queue = some mq →
          mq ∈ definition.containers.map (·.type)))) := by
  have hcount : ∀ t, (lookupGroup (groupFold [] config.containers) t).length
      = countType config.containers t := by
    intro t
    rw [lookupGroup_groupFold]
    simp [lookupGroup, countType]
  constructor
  · intro compare e a
    cases compare <;> simp [check_val, ge_iff_le]
  · rw [check_containers_ok_iff]
    constructor
    · rintro ⟨m, hb, hd, hu, hm⟩
      have hex : ∀ c ∈ config.containers, env.containerExists c.name = true :=
        buildContainerMap_exists env config.containers [] [] m hb
          (by intro n hn; cases hn)
      have hbm : m = groupFold [] config.containers := by
        have h2 := buildContainerMap_ok env config.containers [] [] hex
        rw [hb] at h2
        exact Except.ok.inj h2
      subst hbm
      refine ⟨hex, ?_, ?_, (checkMonitor_ok_iff definition).mp hm⟩
      · intro cd hcd
        have hv := (checkDefs_ok_iff _ _).mp hd cd hcd
        rwa [hcount] at hv
      · intro c hc
        have hkey : c.type ∈ (groupFold [] config.containers).map Prod.fst := by
          rw [mem_keys_groupFold]
          right
          exact List.mem_map_of_mem _ hc
        rw [List.mem_map] at hkey
        obtain ⟨p, hp, hfst⟩ := hkey
        have hmem := (checkUnsupported_ok_iff _ _).mp hu p hp
        rwa [hfst] at hmem
    · rintro ⟨hex, hcard, hdecl, hmon⟩
      refine ⟨groupFold [] config.containers,
        buildContainerMap_ok env config.containers [] [] hex, ?_, ?_,
        (checkMonitor_ok_iff definition).mpr hmon⟩
      · rw [checkDefs_ok_iff]
        intro cd hcd
        rw [hcount]
        exact hcard cd hcd
      · rw [checkUnsupported_ok_iff]
        intro p hp
        have hkey : p.1 ∈ (groupFold [] config.containers).map Prod.fst :=
          List.mem_map_of_mem _ hp
        rw [mem_keys_groupFold] at hkey
        rcases hkey with h0 | h1
        · simp at h0
        · rw [List.mem_map] at h1
          obtain ⟨c, hc, htype⟩ := h1
          exact htype ▸ hdecl c hc

theorem mkNsgRule_eq (env : Env) (r : String) :
    mkNsgRule env r =
      (if badRule r then
        .error ("Invalid rule. Please provide a valid rule or supply the wild card *.")
      else .ok (specRule env r)) := by
  by_cases hb : badRule r
  · unfold badRule at hb
    simp [mkNsgRule, checkRule, hb, badRule]
  · have hb' := hb
    unfold badRule at hb'
    rw [if_neg hb]
    by_cases h1 : r = "*"
    · subst h1
      rfl
    · have h1' : (r == "*") = false := beq_eq_false_iff_ne.mpr h1
      by_cases h2 : env.isIpAddress r = true
      · simp [mkNsgRule, checkRule, hb', h1, h1', h2, specRule]
      · have h2' : env.isIpAddress r = false := by
          rcases hh : env.isIpAddress r
          · rfl
          · exact absurd hh h2
        by_cases h3 : env.isIpNetwork r = true
        · simp [mkNsgRule, checkRule, hb', h1, h1', h2', h3, specRule]
        · have h3' : env.isIpNetwork r = false := by
            rcases hh : env.isIpNetwork r
            · rfl
            · exact absurd hh h3
          simp [mkNsgRule, checkRule, hb', h1, h1', h2', h3', specRule]

theorem classifyAll_ok (env : Env) (err : String → String) (L : List String)
    (h : ∀ r ∈ L, ¬ badRule r) :
    classifyAll env err L = .ok (L.map (specRule env)) := by
  induction L with
  | nil => rfl
  | cons r rest ih =>
    have hr : ¬ badRule r := h r (List.mem_cons_self r rest)
    have hrest := ih fun x hx => h x (List.mem_cons_of_mem r hx)
    simp [classifyAll, mkNsgRule_eq, hr, hrest]

theorem classifyAll_err (env : Env) (err : String → String) (pre : List String)
    (r : String) (post : List String) (hpre : ∀ p ∈ pre, ¬ badRule p)
    (hr : badRule r) :
    classifyAll env err (pre ++ r :: post) = .error (err r) := by
  induction pre with
  | nil => simp [classifyAll, mkNsgRule_eq, hr]
  | cons p ps ih =>
    have hp : ¬ badRule p := hpre p (List.mem_cons_self p ps)
    have hps := ih fun x hx => hpre x (List.mem_cons_of_mem p hx)
    simp [classifyAll, mkNsgRule_eq, hp, hps]

/-- C4: `parse_rules`.  A literal `"*"` anywhere in allowed_ips
short-circuits to exactly one wildcard rule; both lists empty give the
empty list; `NsgRule` classification (the third conjunct) fails exactly on
empty/whitespace-only strings, classifies `"*"` and strings the IP parser
accepts as non-tags, and accepts every other non-empty string as a named
tag; otherwise every entry of both lists is classified in order, an
allowed_ips failure reported as an invalid-IP error and an
allowed_service_tags failure as an invalid-tag error; and the claim's
example yields one IP-range rule and one tag rule. -/
theorem C4_parse_rules (env : Env) (ips tags : List String) :
    ("*" ∈ ips →
      parse_rules env ips tags = .ok [{ rule := "*", is_tag := false }]) ∧
    (ips = [] → tags = [] → parse_rules env ips tags = .ok []) ∧
    (∀ r, mkNsgRule env r =
      (if badRule r then
        .error ("Invalid rule. Please provide a valid rule or supply the wild card *.")
      else .ok (specRule env r))) ∧
    ("*" ∉ ips → ips ≠ [] ∨ tags ≠ [] →
      (∀ r ∈ ips, ¬ badRule r) → (∀ r ∈ tags, ¬ badRule r) →
      parse_rules env ips tags =
        .ok (ips.map (specRule env) ++ tags.map (specRule env))) ∧
    (∀ pre r post, "*" ∉ ips → ips = pre ++ r :: post →
      (∀ p ∈ pre, ¬ badRule p) → badRule r →
      parse_rules env ips tags = .error (invalidIpMsg r)) ∧
    (∀ pre r post, "*" ∉ ips → (∀ p ∈ ips, ¬ badRule p) →
      tags = pre ++ r :: post → (∀ p ∈ pre, ¬ badRule p) → badRule r →
      parse_rules env ips tags = .error (invalidTagMsg r)) ∧
    ((env.isIpAddress ("10.0.0.0/24") || env.isIpNetwork ("10.0.0.0/24")) = true →
      env.isIpAddress ("Internet") = false → env.isIpNetwork ("Internet") = false →
      parse_rules env ["10.0.0.0/24"] ["Internet"] =
        .ok [{ rule := "10.0.0.0/24", is_tag := false },
             { rule := "Internet", is_tag := true }]) := by
  refine ⟨?_, ?_, mkNsgRule_eq env, ?_, ?_, ?_, ?_⟩
  · intro hw
    have hb : ¬ badRule "*" := by decide
    simp [parse_rules, hw, mkNsgRule_eq, hb, specRule]
  · intro hi ht
    subst hi
    subst ht
    simp [parse_rules]
  · intro hnw hne hips htags
    have h0 : ¬ (ips.length + tags.length = 0) := by
      intro hc
      have hi : ips.length = 0 := by omega
      have ht : tags.length = 0 := by omega
      rcases hne with h | h
      · exact h (List.length_eq_zero.mp hi)
      · exact h (List.length_eq_zero.mp ht)
    simp [parse_rules, hnw, h0, classifyAll_ok env _ ips hips,
      classifyAll_ok env _ tags htags]
  · intro pre r post hnw hips hpre hbad
    subst hips
    have h0 : ¬ ((pre ++ r :: post).length + tags.length = 0) := by simp
    simp [parse_rules, hnw, h0, classifyAll_err env _ pre r post hpre hbad]
  · intro pre r post hnw hips htags hpre hbad
    subst htags
    have h0 : ¬ (ips.length + (pre ++ r :: post).length = 0) := by simp
    simp [parse_rules, hnw, h0, classifyAll_ok env _ ips hips,
      classifyAll_err env _ pre r post hpre hbad]
  · intro hip hInt1 hInt2
    have hnw : "*" ∉ ["10.0.0.0/24"] := by decide
    have hips : ∀ r ∈ ["10.0.0.0/24"], ¬ badRule r := by decide
    have htags : ∀ r ∈ ["Internet"], ¬ badRule r := by decide
    have h0 : ¬ ((["10.0.0.0/24"] : List String).length + (["Internet"] : List String).length = 0) := by
      simp
    rw [parse_rules]
    rw [if_neg hnw, if_neg h0, classifyAll_ok env _ _ hips, classifyAll_ok env _ _ htags]
    have e1 : specRule env ("10.0.0.0/24") = { rule := "10.0.0.0/24", is_tag := false } := by
      unfold specRule
      have hne : (("10.0.0.0/24" : String) == "*") = false := by decide
      rw [hne, Bool.false_or, hip]
      rfl
    have e2 : specRule env ("Internet") = { rule := "Internet", is_tag := true } := by
      unfold specRule
      have hne : (("Internet" : String) == "*") = false := by decide
      rw [hne, Bool.false_or, hInt1, hInt2]
      rfl
    simp only [List.map_cons, List.map_nil]
    rw [e1, e2]
    rfl

/-- The C5 failing input: `allowed_ips` empty, `allowed_service_tags`
containing the non-string `42`, all endpoint fields valid. -/
def c5Input : JsonVal :=
  .dict [("proxy_nsg_config", .dict [("allowed_ips", .arr []),
            ("allowed_service_tags", .arr [.num 42])]),
         ("cli_client_id", .str ("11111111-1111-1111-1111-111111111111")),
         ("tenant_id", .str ("t")),
         ("tenant_domain", .str ("d")),
         ("multi_tenant_domain", .str (""))]

/-- The same input with a non-empty `allowed_ips`, showing the intended
behaviour of the very check the bug defeats. -/
def c5InputNonEmptyIps : JsonVal :=
  .dict [("proxy_nsg_config", .dict [("allowed_ips", .arr [.str ("1.2.3.4")]),
            ("allowed_service_tags", .arr [.num 42])]),
         ("cli_client_id", .str ("11111111-1111-1111-1111-111111111111")),
         ("tenant_id", .str ("t")),
         ("tenant_domain", .str ("d")),
         ("multi_tenant_domain", .str (""))]

/-- C5: evaluation at the failing input.  With `allowed_ips` empty, a
non-string element in a non-empty `allowed_service_tags` is NOT rejected —
construction succeeds and stores the non-string tag — because the guard at
configuration.py lines 99-110 gates the tags string-check on
`len(allowed_ips) != 0`.  With `allowed_ips` non-empty the same tags list
is rejected, showing the spec's reading is the intended one. -/
theorem C5_code_bug_eval :
    Config.parse c5Input =
      .ok { cli_client_id := "11111111-1111-1111-1111-111111111111",
            tenant_id := "t", tenant_domain := "d", multi_tenant_domain := "",
            allowed_ips := [], allowed_service_tags := [.num 42] } ∧
    Config.parse c5InputNonEmptyIps =
      .error ("allowed_ips and allowed_service_tags are not a list of strings. Please Provide Valid Config.") :=
  ⟨rfl, rfl⟩

theorem pyOr_isEmpty_eq_getD {α : Type} (o : Option (List α)) :
    pyOr o (·.isEmpty) [] = o.getD [] := by
  cases o with
  | none => rfl
  | some l => cases l <;> rfl

theorem pyOr_not_eq_getD (o : Option Bool) :
    pyOr o (!·) false = o.getD false := by
  cases o with
  | none => rfl
  | some b => cases b <;> rfl

theorem pyOr_zero_eq_getD (o : Option Nat) :
    pyOr o (· == 0) 0 = o.getD 0 := by
  cases o with
  | none => rfl
  | some n => cases n <;> rfl

theorem preFeatureUnit_fields (env : Env) (definition : TaskDefinition)
    (job : Job) (task : Task) :
    (preFeatureUnit env definition job task).supervisor_env = none ∧
    (preFeatureUnit env definition job task).supervisor_options = none ∧
    (preFeatureUnit env definition job task).target_env = none ∧
    (preFeatureUnit env definition job task).target_options = none ∧
    (preFeatureUnit env definition job task).target_options_merge = none ∧
    (preFeatureUnit env definition job task).rename_output = none ∧
    (preFeatureUnit env definition job task).generator_env = none ∧
    (preFeatureUnit env definition job task).generator_options = none ∧
    (preFeatureUnit env definition job task).analyzer_options = none ∧
    (preFeatureUnit env definition job task).analyzer_env = none ∧
    (preFeatureUnit env definition job task).check_retry_count = none ∧
    (preFeatureUnit env definition job task).check_fuzzer_help = none ∧
    (preFeatureUnit env definition job task).expect_crash_on_failure = none ∧
    (preFeatureUnit env definition job task).roles =
      buildRoles env definition task.config.containers := by
  unfold preFeatureUnit baseUnitConfig
  rcases job.config.logs with _ | l <;> dsimp <;> split_ifs <;> simp

/-- C6: feature projection.  `build_task_config` with a registered type
succeeds with `buildTaskUnit`; and, for every feature of the claim's
table, the output field equals the corresponding source field with the
feature-specific default applied when the value is absent (Python's falsy
`or`, which coincides with the absent-default on these types) when the
feature is declared in the definition, and is unset otherwise. -/
theorem C6_feature_defaults (env : Env) (definition : TaskDefinition)
    (job : Job) (task : Task) :
    (env.taskDefs task.config.task.type = some definition →
      build_task_config env job task = .ok (buildTaskUnit env definition job task)) ∧
    ((buildTaskUnit env definition job task).supervisor_env =
      (if TaskFeature.supervisor_env ∈ definition.features
       then some (task.config.task.supervisor_env.getD []) else none)) ∧
    ((buildTaskUnit env definition job task).supervisor_options =
      (if TaskFeature.supervisor_options ∈ definition.features
       then some (task.config.task.supervisor_options.getD []) else none)) ∧
    ((buildTaskUnit env definition job task).target_env =
      (if TaskFeature.target_env ∈ definition.features
       then some (task.config.task.target_env.getD []) else none)) ∧
    ((buildTaskUnit env definition job task).target_options =
      (if TaskFeature.target_options ∈ definition.features
       then some (task.config.task.target_options.getD []) else none)) ∧
    ((buildTaskUnit env definition job task).target_options_merge =
      (if TaskFeature.target_options_merge ∈ definition.features
       then some (task.config.task.target_options_merge.getD false) else none)) ∧
    ((buildTaskUnit env definition job task).rename_output =
      (if TaskFeature.rename_output ∈ definition.features
       then some (task.config.task.rename_output.getD false) else none)) ∧
    ((buildTaskUnit env definition job task).generator_env =
      (if TaskFeature.generator_env ∈ definition.features
       then some (task.config.task.generator_env.getD []) else none)) ∧
    ((buildTaskUnit env definition job task).generator_options =
      (if TaskFeature.generator_options ∈ definition.features
       then some (task.config.task.generator_options.getD []) else none)) ∧
    ((buildTaskUnit env definition job task).analyzer_options =
      (if TaskFeature.analyzer_options ∈ definition.features
       then some (task.config.task.analyzer_options.getD []) else none)) ∧
    ((buildTaskUnit env definition job task).analyzer_env =
      (if TaskFeature.analyzer_env ∈ definition.features
       then some (task.config.task.analyzer_env.getD []) else none)) ∧
    ((buildTaskUnit env definition job task).check_retry_count =
      (if TaskFeature.check_retry_count ∈ definition.features
       then some (task.config.task.check_retry_count.getD 0) else none)) ∧
    ((buildTaskUnit env definition job task).check_fuzzer_help =
      (if TaskFeature.check_fuzzer_help ∈ definition.features
       then some (task.config.task.check_fuzzer_help.getD true) else none)) ∧
    ((buildTaskUnit env definition job task).expect_crash_on_failure =
      (if TaskFeature.expect_crash_on_failure ∈ definition.features
       then some (task.config.task.expect_crash_on_failure.getD true) else none)) := by
  obtain ⟨p1, p2, p3, p4, p5, p6, p7, p8, p9, p10, p11, p12, p13, -⟩ :=
    preFeatureUnit_fields env definition job task
  refine ⟨?_, ?_, ?_, ?_, ?_, ?_, ?_, ?_, ?_, ?_, ?_, ?_, ?_, ?_⟩
  · intro h
    simp [build_task_config, h]
  · by_cases hm : TaskFeature.supervisor_env ∈ definition.features <;>
      simp [buildTaskUnit, applyFeatures, hm, pyOr_isEmpty_eq_getD, p1]
  · by_cases hm : TaskFeature.supervisor_options ∈ definition.features <;>
      simp [buildTaskUnit, applyFeatures, hm, pyOr_isEmpty_eq_getD, p2]
  · by_cases hm : TaskFeature.target_env ∈ definition.features <;>
      simp [buildTaskUnit, applyFeatures, hm, pyOr_isEmpty_eq_getD, p3]
  · by_cases hm : TaskFeature.target_options ∈ definition.features <;>
      simp [buildTaskUnit, applyFeatures, hm, pyOr_isEmpty_eq_getD, p4]
  · by_cases hm : TaskFeature.target_options_merge ∈ definition.features <;>
      simp [buildTaskUnit, applyFeatures, hm, pyOr_not_eq_getD, p5]
  · by_cases hm : TaskFeature.rename_output ∈ definition.features <;>
      simp [buildTaskUnit, applyFeatures, hm, pyOr_not_eq_getD, p6]
  · by_cases hm : TaskFeature.generator_env ∈ definition.features <;>
      simp [buildTaskUnit, applyFeatures, hm, pyOr_isEmpty_eq_getD, p7]
  · by_cases hm : TaskFeature.generator_options ∈ definition.features <;>
      simp [buildTaskUnit, applyFeatures, hm, pyOr_isEmpty_eq_getD, p8]
  · by_cases hm : TaskFeature.analyzer_options ∈ definition.features <;>
      simp [buildTaskUnit, applyFeatures, hm, pyOr_isEmpty_eq_getD, p9]
  · by_cases hm : TaskFeature.analyzer_env ∈ definition.features <;>
      simp [buildTaskUnit, applyFeatures, hm, pyOr_isEmpty_eq_getD, p10]
  · by_cases hm : TaskFeature.check_retry_count ∈ definition.features <;>
      simp [buildTaskUnit, applyFeatures, hm, pyOr_zero_eq_getD, p11]
  · by_cases hm : TaskFeature.check_fuzzer_help ∈ definition.features <;>
      simp [buildTaskUnit, applyFeatures, hm, p12]
  · by_cases hm : TaskFeature.expect_crash_on_failure ∈ definition.features <;>
      simp [buildTaskUnit, applyFeatures, hm, p13]

theorem lookupRole_setAssoc_self (l : List (ContainerType × RoleValue))
    (t : ContainerType) (v : RoleValue) :
    lookupRole (setAssoc l t v) t = some v := by
  induction l with
  | nil => simp [setAssoc, lookupRole]
  | cons p rest ih =>
    obtain ⟨a, b⟩ := p
    by_cases h : a = t
    · subst h; simp [setAssoc, lookupRole]
    · simp [setAssoc, lookupRole, h, ih]

theorem lookupRole_setAssoc_other (l : List (ContainerType × RoleValue))
    {t t' : ContainerType} (v : RoleValue) (h : t' ≠ t) :
    lookupRole (setAssoc l t v) t' = lookupRole l t' := by
  induction l with
  | nil => simp [setAssoc, lookupRole, Ne.symm h]
  | cons p rest ih =>
    obtain ⟨a, b⟩ := p
    by_cases ha : a = t
    · subst ha
      simp [setAssoc, lookupRole, Ne.symm h]
    · by_cases ha' : a = t'
      · subst ha'; simp [setAssoc, lookupRole, ha]
      · simp [setAssoc, lookupRole, ha, ha', ih]

theorem lookupRole_applyContainerDef_other (env : Env) (cs : List ContainerRef)
    (acc : List (ContainerType × RoleValue)) (cd : ContainerDef)
    (t : ContainerType) (h : cd.type ≠ t) :
    lookupRole (applyContainerDef env cs acc cd) t = lookupRole acc t := by
  unfold applyContainerDef
  by_cases hs : cd.type = ContainerType.setup
  · simp [hs]
  · simp only [if_neg hs]
    rcases hg : gatherEntries env cd cs.enum with _ | ⟨e, es⟩
    · rfl
    · by_cases hc : (cd.compare = Compare.Equal ∨ cd.compare = Compare.AtMost) ∧ cd.value = 1
      · simp [hc, lookupRole_setAssoc_other _ _ (Ne.symm h)]
      · simp [hc, lookupRole_setAssoc_other _ _ (Ne.symm h)]

theorem lookupRole_fold_not_mem (env : Env) (cs : List ContainerRef)
    (defs : List ContainerDef) (t : ContainerType)
    (h : ∀ cd ∈ defs, cd.type ≠ t) :
    ∀ acc, lookupRole (defs.foldl (applyContainerDef env cs) acc) t = lookupRole acc t := by
  induction defs with
  | nil => intro acc; rfl
  | cons d rest ih =>
    intro acc
    rw [List.foldl_cons, ih fun cd hcd => h cd (List.mem_cons_of_mem d hcd),
      lookupRole_applyContainerDef_other env cs acc d t (h d (List.mem_cons_self d rest))]

theorem lookupRole_buildRoles (env : Env) (cs : List ContainerRef)
    (cd : ContainerDef) :
    ∀ defs : List ContainerDef, cd ∈ defs → (defs.map (·.type)).Nodup →
    cd.type ≠ ContainerType.setup →
    ∀ acc, lookupRole acc cd.type = none →
    lookupRole (defs.foldl (applyContainerDef env cs) acc) cd.type =
      (match gatherEntries env cd cs.enum with
       | [] => none
       | e :: es =>
         some (if (cd.compare = Compare.Equal ∨ cd.compare = Compare.AtMost) ∧ cd.value = 1
               then RoleValue.one e else RoleValue.many (e :: es))) := by
  intro defs
  induction defs with
  | nil => intro hmem; cases hmem
  | cons d rest ih =>
    intro hmem hnd hsetup acc hacc
    have hn := List.nodup_cons.mp hnd
    rw [List.foldl_cons]
    rcases List.mem_cons.mp hmem with heq | hm
    · subst heq
      have hrest : ∀ d2 ∈ rest, d2.type ≠ cd.type := by
        intro d2 hd2 he
        refine hn.1 ?_
        show cd.type ∈ List.map (fun x => x.type) rest
        rw [← he]
        exact List.mem_map_of_mem _ hd2
      rw [lookupRole_fold_not_mem env cs rest cd.type hrest]
      unfold applyContainerDef
      rw [if_neg hsetup]
      rcases hg : gatherEntries env cd cs.enum with _ | ⟨e, es⟩
      · exact hacc
      · by_cases hc : (cd.compare = Compare.Equal ∨ cd.compare = Compare.AtMost) ∧ cd.value = 1
        · simp [hc, lookupRole_setAssoc_self]
        · simp [hc, lookupRole_setAssoc_self]
    · have hd : d.type ≠ cd.type := by
        intro he
        refine hn.1 ?_
        show d.type ∈ List.map (fun x => x.type) rest
        rw [he]
        exact List.mem_map_of_mem _ hm
      refine ih hm hn.2 hsetup (applyContainerDef env cs acc d) ?_
      rw [lookupRole_applyContainerDef_other env cs acc d cd.type hd, hacc]

theorem gatherEntries_eq (env : Env) (cd : ContainerDef)
    (l : List (Nat × ContainerRef)) :
    gatherEntries env cd l =
      (l.filter (fun p => decide (p.2.type = cd.type))).map
        (fun p => mkEntry env cd p.1 p.2) := by
  induction l with
  | nil => rfl
  | cons p rest ih =>
    obtain ⟨i, c⟩ := p
    by_cases h : c.type = cd.type
    · simp [gatherEntries, h, ih]
    · simp [gatherEntries, h, ih]

theorem applyFeatures_roles (definition : TaskDefinition) (t : TaskDetails)
    (c : TaskUnitConfig) : (applyFeatures definition t c).roles = c.roles := rfl

/-- C7: container-role projection.  For a non-setup role declared once in
the definition, the projected role field holds one entry per submitted
container of that role (in submission order, indexed by position in the
full submission list), is a single object exactly when the cardinality is
Equal-1 or AtMost-1 and a list otherwise, and is left unset when no
container matches; each entry's path is `task_<role>_<index>` and its URL
carries the permission flags of the role's declared permission set. -/
theorem C7_container_projection (env : Env) (definition : TaskDefinition)
    (job : Job) (task : Task) (cd : ContainerDef) :
    (cd ∈ definition.containers → cd.type ≠ ContainerType.setup →
      (definition.containers.map (·.type)).Nodup →
      lookupRole (buildTaskUnit env definition job task).roles cd.type =
        (match gatherEntries env cd task.config.containers.enum with
         | [] => none
         | e :: es =>
           some (if (cd.compare = Compare.Equal ∨ cd.compare = Compare.AtMost) ∧ cd.value = 1
                 then RoleValue.one e else RoleValue.many (e :: es)))) ∧
    (gatherEntries env cd task.config.containers.enum =
      (task.config.containers.enum.filter (fun p => decide (p.2.type = cd.type))).map
        (fun p => mkEntry env cd p.1 p.2)) ∧
    (∀ e ∈ gatherEntries env cd task.config.containers.enum,
      ∃ i c, (i, c) ∈ task.config.containers.enum ∧ c.type = cd.type ∧
        e.path = "task_" ++ cd.type.pyName ++ "_" ++ toString i ∧
        e.url = env.containerSasUrl c.name
          (decide (ContainerPermission.Read ∈ cd.permissions))
          (decide (ContainerPermission.Write ∈ cd.permissions))
          (decide (ContainerPermission.Delete ∈ cd.permissions))
          (decide (ContainerPermission.List ∈ cd.permissions))) := by
  refine ⟨?_, gatherEntries_eq env cd _, ?_⟩
  · intro hmem hsetup hnd
    have hroles : (buildTaskUnit env definition job task).roles =
        buildRoles env definition task.config.containers := by
      obtain ⟨-, -, -, -, -, -, -, -, -, -, -, -, -, hr⟩ :=
        preFeatureUnit_fields env definition job task
      rw [buildTaskUnit, applyFeatures_roles, hr]
    rw [hroles]
    exact lookupRole_buildRoles env task.config.containers cd
      definition.containers hmem hnd hsetup [] rfl
  · intro e he
    rw [gatherEntries_eq, List.mem_map] at he
    obtain ⟨p, hp, hpe⟩ := he
    have hf := List.of_mem_filter hp
    have hmemf := List.mem_of_mem_filter hp
    obtain ⟨i, c⟩ := p
    refine ⟨i, c, hmemf, by simpa using hf, ?_, ?_⟩
    · rw [← hpe]
      rfl
    · rw [← hpe]
      rfl

/-! ## Concrete sanity checks mirroring the specification's §8 examples -/

def exDef : TaskDefinition :=
  { features := [TaskFeature.rename_output, TaskFeature.check_fuzzer_help]
    containers := [{ type := ContainerType.setup, compare := Compare.Equal,
                     value := 1, permissions := [] }]
    vm := { compare := Compare.AtLeast, value := 1 } }

def exEnv : Env :=
  { taskDefs := fun t => if t = TaskType.libfuzzer_fuzz then some exDef else none
    containerExists := fun _ => true
    blobExists := fun _ _ => true
    poolByName := fun _ => some ()
    queueSas := fun n => n
    containerSasUrl := fun n _ _ _ _ => n
    addContainerSasUrl := fun n => n
    instanceId := "i"
    isIpAddress := fun _ => false
    isIpNetwork := fun _ => false }

def exConfig (cs : List ContainerRef) : TaskConfig :=
  { task := { type := TaskType.libfuzzer_fuzz }
    pool := some { pool_name := "p", count := 2 }
    containers := cs }

theorem exactly_one_setup_ok :
    check_config exEnv (exConfig [{ name := "s", type := ContainerType.setup }]) = .ok () := rfl

theorem zero_setup_fails :
    check_config exEnv (exConfig []) =
      .error (.taskConfigError ("container type setup: expected Equal 1, got 0")) := rfl

theorem two_setup_fails :
    check_config exEnv (exConfig [{ name := "s", type := ContainerType.setup },
                                  { name := "s2", type := ContainerType.setup }]) =
      .error (.taskConfigError ("container type setup: expected Equal 1, got 2")) := rfl

def exJob : Job := { job_id := "j", config := { logs := some ("logs") } }

def exTask : Task :=
  { task_id := "t", config := exConfig [{ name := "s", type := ContainerType.setup }] }

theorem rename_output_defaults_false :
    (buildTaskUnit exEnv exDef exJob exTask).rename_output = some false := rfl

theorem check_fuzzer_help_defaults_true :
    (buildTaskUnit exEnv exDef exJob exTask).check_fuzzer_help = some true := rfl

end Onefuzz
